import Mathlib

/-!
Shallow embedding of the two source files of this repository:

* `slowfast/datasets/hvu.py` — the `Hvu` multilabel video dataset loader
  (`__init__`, `_construct_loader`, `__getitem__`, `__len__`, `num_videos`).
  External effects (the video container loader, the decoder, the augmentation
  transforms, `random.randint`) are modelled as oracle functions supplied in an
  environment; file-system reads are modelled by passing the split file's
  content (`None` when the file does not exist, otherwise the list of lines
  produced by `f.read().splitlines()`).

* `extract_clip/extract.py` — the CLIP visual-encoder state-dict filter;
  state dicts are modelled as ordered association lists (`OrderedDict`).

Python machine-level semantics used by this code is embedded explicitly:
sequence indexing with negative indices (`pyGet`/`pySet`), `str.split`
(`pySplit`), `int(...)` parsing (`pyInt`), `os.path.join` (`pyJoin`),
round-half-to-even (`pyRound`, floats modelled as rationals), and exceptions
(`PyError` / `Except`).
-/

set_option autoImplicit false

/-- Python exception kinds raised by the embedded code. -/
inductive PyError where
  | assertionError
  | valueError
  | indexError
  | keyError
  | runtimeError
  | notImplementedError
  | zeroDivisionError
  deriving DecidableEq, Repr

/-- Python sequence read `l[i]` with negative-index wrap-around:
an index `i < 0` addresses position `i + len(l)`; out-of-range gives `none`
(`IndexError`). -/
def pyGet {α : Type} (l : List α) (i : Int) : Option α :=
  let j : Int := if i < 0 then i + l.length else i
  if j < 0 then none else l[j.toNat]?

/-- Python sequence write `l[i] = a` with negative-index wrap-around;
out-of-range gives `none` (`IndexError`). -/
def pySet {α : Type} (l : List α) (i : Int) (a : α) : Option (List α) :=
  let j : Int := if i < 0 then i + l.length else i
  if j < 0 ∨ (l.length : Int) ≤ j then none else some (l.set j.toNat a)

/-- Python 3 `round` on a real value (modelled as a rational):
round half to even. -/
def pyRound (q : ℚ) : ℤ :=
  let f : ℤ := ⌊q⌋
  let r : ℚ := q - f
  if r < 1/2 then f
  else if 1/2 < r then f + 1
  else if f % 2 = 0 then f else f + 1

/-- If `pat` is a leading segment of `l`, return the remainder. -/
def stripPre : List Char → List Char → Option (List Char)
  | [], l => some l
  | _ :: _, [] => none
  | p :: ps, c :: cs => if c = p then stripPre ps cs else none

/-- Worker for `pySplit`: scan `l`, splitting at each leftmost occurrence of
the (non-empty) separator `sep`; `acc` holds the current chunk reversed, and
the fuel bounds the scan length. -/
def splitFuel (sep : List Char) : Nat → List Char → List Char → List (List Char)
  | _, acc, [] => [acc.reverse]
  | 0, acc, l => [acc.reverse ++ l]
  | fuel + 1, acc, c :: cs =>
    match stripPre sep (c :: cs) with
    | some rest => acc.reverse :: splitFuel sep fuel [] rest
    | none => splitFuel sep fuel (c :: acc) cs

/-- Python `s.split(sep)` for a non-empty separator string. -/
def pySplit (s sep : String) : List String :=
  (splitFuel sep.data s.data.length [] s.data).map (fun cs => ⟨cs⟩)

/-- Python substring test `pat in s` on character lists. -/
def containsSub (pat : List Char) : List Char → Bool
  | [] => pat.isEmpty
  | c :: cs => (stripPre pat (c :: cs)).isSome || containsSub pat cs

/-- Python string slice `s[n:]`. -/
def pyDrop (n : Nat) (s : String) : String := ⟨s.data.drop n⟩

/-- ASCII whitespace accepted by Python `int(...)` / `str.strip()`. -/
def isWs (c : Char) : Bool :=
  c = ' ' || c = '\t' || c = '\n' || c = '\r' || c = '\x0b' || c = '\x0c'

/-- Strip whitespace from both ends. -/
def pyTrim (cs : List Char) : List Char :=
  ((cs.dropWhile isWs).reverse.dropWhile isWs).reverse

/-- Accumulate a non-empty all-decimal-digit run into a number. -/
def digitsValAux : List Char → Nat → Option Nat
  | [], acc => some acc
  | c :: cs, acc =>
    if c.isDigit then digitsValAux cs (acc * 10 + (c.toNat - '0'.toNat)) else none

/-- Value of a non-empty digit string. -/
def digitsVal : List Char → Option Nat
  | [] => none
  | cs => digitsValAux cs 0

/-- Python `int(s)` on a decimal string: optional surrounding whitespace,
optional sign, then a non-empty digit run; anything else raises `ValueError`
(`none`). -/
def pyInt (s : String) : Option Int :=
  match pyTrim s.data with
  | '+' :: cs => (digitsVal cs).map (fun n => (n : Int))
  | '-' :: cs => (digitsVal cs).map (fun n => -(n : Int))
  | cs => (digitsVal cs).map (fun n => (n : Int))

/-- POSIX `os.path.join` for two components. -/
def pyJoin (a b : String) : String :=
  if b.data.take 1 = ['/'] then b
  else if a.data = [] then b
  else if a.data.getLast? = some '/' then ⟨a.data ++ b.data⟩
  else ⟨a.data ++ '/' :: b.data⟩

/-! ## Configuration node (the `cfg` fields read by `hvu.py`) -/

/-- `cfg.MODEL`. -/
structure ModelCfg where
  NUM_CLASSES : Nat
  deriving DecidableEq, Repr

/-- `cfg.TEST`. -/
structure TestCfg where
  NUM_ENSEMBLE_VIEWS : Nat
  NUM_SPATIAL_CROPS : Nat
  deriving DecidableEq, Repr

/-- `cfg.DATA` (the fields this module reads). -/
structure DataCfg where
  PATH_TO_DATA_DIR : String
  PATH_LABEL_SEPARATOR : String
  PATH_PREFIX : String
  TRAIN_JITTER_SCALES : ℤ × ℤ
  TRAIN_CROP_SIZE : ℤ
  TEST_CROP_SIZE : ℤ
  deriving DecidableEq, Repr

/-- `cfg.MULTIGRID` (the fields this module reads); the short-cycle factors
are floats, modelled as rationals. -/
structure MultigridCfg where
  SHORT_CYCLE_FACTORS : List ℚ
  DEFAULT_S : ℤ
  deriving DecidableEq, Repr

/-- `cfg.AUG` (the fields this module reads). -/
structure AugCfg where
  ENABLE : Bool
  RE_PROB : ℚ
  NUM_SAMPLE : Nat
  deriving DecidableEq, Repr

/-- The configuration node `cfg` restricted to the groups `hvu.py` reads. -/
structure Cfg where
  MODEL : ModelCfg
  TEST : TestCfg
  DATA : DataCfg
  MULTIGRID : MultigridCfg
  AUG : AugCfg
  deriving DecidableEq, Repr

/-! ## `Hvu._construct_loader` and `Hvu.__init__` -/

/-- `mapM` over `Except` written by structural recursion (the effect of
running a fallible parser over every CSV line, stopping at the first raise). -/
def mapME {α β : Type} (f : α → Except PyError β) : List α → Except PyError (List β)
  | [] => .ok []
  | a :: as =>
    match f a, mapME f as with
    | .ok b, .ok bs => .ok (b :: bs)
    | .error e, _ => .error e
    | .ok _, .error e => .error e

/-- `list(map(int, label_str.split('|')))`: the first non-integer chunk
raises `ValueError` (`none`). -/
def mapIntList : List String → Option (List Int)
  | [] => some []
  | s :: ss =>
    match pyInt s, mapIntList ss with
    | some i, some is => some (i :: is)
    | _, _ => none

/-- One CSV line of `_construct_loader`:
`path, label_str = path_label.split(sep)` (exactly two chunks, else
`ValueError`), then `labels = list(map(int, label_str.split('|')))`.
An empty separator makes `str.split` raise `ValueError`. -/
def parseLine (sep line : String) : Except PyError (String × List Int) :=
  if sep.data = [] then .error .valueError
  else
    match pySplit line sep with
    | [path, label_str] =>
      match mapIntList (pySplit label_str "|") with
      | some labels => .ok (path, labels)
      | none => .error .valueError
    | _ => .error .valueError

/-- The loop `for label in labels: one_hot_labels[label] = 1` over a float
vector (floats modelled as rationals); an out-of-range label raises
`IndexError`. -/
def setLabels (v : List ℚ) : List Int → Except PyError (List ℚ)
  | [] => .ok v
  | l :: ls =>
    match pySet v l 1 with
    | some v' => setLabels v' ls
    | none => .error .indexError

/-- `one_hot_labels = torch.zeros(cfg.MODEL.NUM_CLASSES)` followed by the
label-setting loop. -/
def oneHot (n : Nat) (labels : List Int) : Except PyError (List ℚ) :=
  setLabels (List.replicate n 0) labels

/-- Per-line work of `_construct_loader`: parse the line, build the one-hot
vector, and prefix the video path with `cfg.DATA.PATH_PREFIX`. -/
def lineEntry (cfg : Cfg) (line : String) : Except PyError (String × List ℚ) :=
  match parseLine cfg.DATA.PATH_LABEL_SEPARATOR line with
  | .error e => .error e
  | .ok (path, labels) =>
    match oneHot cfg.MODEL.NUM_CLASSES labels with
    | .error e => .error e
    | .ok oh => .ok (pyJoin (DataCfg.PATH_PREFIX cfg.DATA) path, oh)

/-- The flat `(path, one_hot_labels, idx)` triples appended by the inner
`for idx in range(self._num_clips)` loop, over all parsed lines in order. -/
def entriesOf (parsed : List (String × List ℚ)) (nc : Nat) :
    List (String × List ℚ × Nat) :=
  (parsed.map (fun pe => (List.range nc).map (fun idx => (pe.1, pe.2, idx)))).flatten

/-- The flat entry list built by `_construct_loader`: for each CSV line, one
`(path, one_hot_labels, idx)` triple per `idx in range(self._num_clips)`. -/
def buildEntries (cfg : Cfg) (nc : Nat) (lines : List String) :
    Except PyError (List (String × List ℚ × Nat)) :=
  match mapME (lineEntry cfg) lines with
  | .error e => .error e
  | .ok parsed => .ok (entriesOf parsed nc)

/-- The state `Hvu.__init__` leaves behind (the fields the claims touch);
`_video_meta` is a dict whose key set after construction is exactly
`{0, …, len(_path_to_videos) - 1}`, so it is represented by that length. -/
structure HvuState where
  cfg : Cfg
  mode : String
  _num_retries : Nat
  _num_clips : Nat
  _path_to_videos : List String
  _labels : List (List ℚ)
  _spatial_temporal_idx : List Nat
  aug : Bool
  rand_erase : Bool
  deriving DecidableEq, Repr

/-- `self._num_clips` as set by `__init__`: `1` in `train`/`val` mode,
`cfg.TEST.NUM_ENSEMBLE_VIEWS * cfg.TEST.NUM_SPATIAL_CROPS` in `test` mode. -/
def initNumClips (cfg : Cfg) (mode : String) : Nat :=
  if mode = "train" ∨ mode = "val" then 1
  else cfg.TEST.NUM_ENSEMBLE_VIEWS * cfg.TEST.NUM_SPATIAL_CROPS

/-- The configuration node after the in-place mutation done by `__init__`:
`train`/`val` mode overwrites `cfg.TEST.NUM_ENSEMBLE_VIEWS` and
`cfg.TEST.NUM_SPATIAL_CROPS` with `1`, `test` mode leaves `cfg` unchanged. -/
def initCfg (cfg : Cfg) (mode : String) : Cfg :=
  if mode = "train" ∨ mode = "val" then
    { cfg with TEST := { cfg.TEST with NUM_ENSEMBLE_VIEWS := 1, NUM_SPATIAL_CROPS := 1 } }
  else cfg

/-- `Hvu._construct_loader`: assert that the split file exists (`none` means
`g_pathmgr.exists` failed, an `AssertionError`), read its lines, build the
flat per-clip entry triples, and assert the result is non-empty.  `cfg2` is
`self.cfg` (the node after `__init__`'s mutation) and `nc` is
`self._num_clips`. -/
def construct_loader (cfg2 : Cfg) (nc : Nat) :
    Option (List String) → Except PyError (List (String × List ℚ × Nat))
  | none => .error .assertionError
  | some lines =>
    match buildEntries cfg2 nc lines with
    | .error e => .error e
    | .ok entries =>
      if entries.length = 0 then .error .assertionError else .ok entries

/-- `Hvu.__init__(cfg, mode, num_retries)`.  `file` is the content of
`os.path.join(cfg.DATA.PATH_TO_DATA_DIR, f"{mode}.csv")`: `none` when the
file does not exist, otherwise the lines of `f.read().splitlines()`.
Returns the constructed dataset state and the configuration object after
construction (the caller's `cfg` is mutated in place in Python, so the
possibly-updated node is returned explicitly). -/
def hvuInit (cfg : Cfg) (mode : String) (num_retries : Nat)
    (file : Option (List String)) : Except PyError (HvuState × Cfg) :=
  if mode = "train" ∨ mode = "val" ∨ mode = "test" then
    match construct_loader (initCfg cfg mode) (initNumClips cfg mode) file with
    | .error e => .error e
    | .ok entries =>
      .ok ({ cfg := initCfg cfg mode
             mode := mode
             _num_retries := num_retries
             _num_clips := initNumClips cfg mode
             _path_to_videos := entries.map (fun t => t.1)
             _labels := entries.map (fun t => t.2.1)
             _spatial_temporal_idx := entries.map (fun t => t.2.2)
             aug := mode == "train" && (initCfg cfg mode).AUG.ENABLE
             rand_erase := (mode == "train" && (initCfg cfg mode).AUG.ENABLE)
               && decide (0 < (initCfg cfg mode).AUG.RE_PROB) },
           initCfg cfg mode)
  else .error .assertionError

/-- `Hvu.__len__`. -/
def hvuLen (st : HvuState) : Nat := st._path_to_videos.length

/-- `Hvu.num_videos` (property). -/
def numVideos (st : HvuState) : Nat := st._path_to_videos.length

/-! ## `Hvu.__getitem__` -/

/-- The sampling parameters `__getitem__` computes before its retry loop. -/
structure SampleParams where
  temporal_sample_index : Int
  spatial_sample_index : Int
  min_scale : Int
  max_scale : Int
  crop_size : Int
  deriving DecidableEq, Repr

/-- The `train` branch of `__getitem__` (lines 103–112): jitter scales and
crop size from the config, with the short-cycle replacement of `crop_size`
when a short-cycle index 0 or 1 is supplied, and the `min_scale` rescaling
when `cfg.MULTIGRID.DEFAULT_S > 0`.  A short-cycle index beyond the factor
list raises `IndexError`. -/
def trainParams (cfg : Cfg) (short_cycle_idx : Option Nat) :
    Except PyError SampleParams :=
  let min_scale : Int := cfg.DATA.TRAIN_JITTER_SCALES.1
  let max_scale : Int := cfg.DATA.TRAIN_JITTER_SCALES.2
  let crop_size : Int := cfg.DATA.TRAIN_CROP_SIZE
  let cropRes : Except PyError Int :=
    if short_cycle_idx = some 0 ∨ short_cycle_idx = some 1 then
      match cfg.MULTIGRID.SHORT_CYCLE_FACTORS[short_cycle_idx.getD 0]? with
      | some factor => .ok (pyRound (factor * (cfg.MULTIGRID.DEFAULT_S : ℚ)))
      | none => .error .indexError
    else .ok crop_size
  match cropRes with
  | .error e => .error e
  | .ok crop_size =>
    let min_scale : Int :=
      if 0 < cfg.MULTIGRID.DEFAULT_S then
        pyRound ((min_scale : ℚ) * (crop_size : ℚ) / (cfg.MULTIGRID.DEFAULT_S : ℚ))
      else min_scale
    .ok ⟨-1, -1, min_scale, max_scale, crop_size⟩

/-- The `val`/`test` branch of `__getitem__` (lines 113–117):
`temporal_sample_index = self._spatial_temporal_idx[index] // NUM_SPATIAL_CROPS`,
`spatial_sample_index = self._spatial_temporal_idx[index] % NUM_SPATIAL_CROPS`
when `NUM_SPATIAL_CROPS > 1` else `1`, and every scale set to
`cfg.DATA.TEST_CROP_SIZE`.  A zero crop count raises `ZeroDivisionError`. -/
def testValParams (st : HvuState) (index : Int) : Except PyError SampleParams :=
  match pyGet st._spatial_temporal_idx index with
  | none => .error .indexError
  | some v =>
    let c := st.cfg.TEST.NUM_SPATIAL_CROPS
    if c = 0 then .error .zeroDivisionError
    else
      let temporal : Int := (v / c : Nat)
      let spatial : Int := if 1 < c then ((v % c : Nat) : Int) else 1
      let cs : Int := st.cfg.DATA.TEST_CROP_SIZE
      .ok ⟨temporal, spatial, cs, cs, cs⟩

/-- The mode dispatch of `__getitem__` before the retry loop (the `else`
branch raises `NotImplementedError`). -/
def computeParams (st : HvuState) (index : Int) (short_cycle_idx : Option Nat) :
    Except PyError SampleParams :=
  if st.mode = "train" then trainParams st.cfg short_cycle_idx
  else if st.mode = "val" ∨ st.mode = "test" then testValParams st index
  else .error .notImplementedError

/-- Oracles for the external effects of the retry loop, keyed by the attempt
number `i_try` and the current index where the effect sees them:
`container_ok` tells whether `container.get_video_container` produced a
non-`None` container, `decode_result` is the value of `decoder.decode`
(`none` for a failed decode), `randint i` is the value of
`random.randint(0, len-1)` drawn on attempt `i`, `aug_frame` is
`self._aug_frame` (per inner sample iteration), `transform` is the
`tensor_normalize`/`permute`/`spatial_sampling` pipeline of the
non-augmented branch, and `pack` is `utils.pack_pathway_output`. -/
structure GetEnv (F G : Type) where
  container_ok : Nat → Int → Bool
  decode_result : Nat → Int → Option F
  randint : Nat → Nat
  aug_frame : SampleParams → Nat → F → F
  transform : SampleParams → F → F
  pack : F → G

/-- One component of the Python tuple `__getitem__` returns. -/
inductive PyComp (G : Type) where
  | frames (g : G)
  | labels (l : List ℚ)
  | idx (i : Int)
  | frameList (gs : List G)
  | labelList (ls : List (List ℚ))
  | idxList (is : List Int)
  | emptyDict
  deriving DecidableEq, Repr

/-- Tail of a successful single-sample attempt: `labels = self._labels[index]`,
`frames = utils.pack_pathway_output(self.cfg, frames)`,
`return frames, labels, index, {}`. -/
def finishSingle {F G : Type} (env : GetEnv F G) (st : HvuState) (index : Int)
    (f : F) : Except PyError (List (PyComp G)) :=
  match pyGet st._labels index with
  | none => .error .indexError
  | some lv => .ok [.frames (env.pack f), .labels lv, .idx index, .emptyDict]

/-- The body run once frames decoded successfully (lines 171–207): the
augmented multi-sample branch returns the four lists, the single-sample
branches return the four-component tuple. -/
def returnSuccess {F G : Type} (env : GetEnv F G) (st : HvuState)
    (p : SampleParams) (index : Int) (f : F) : Except PyError (List (PyComp G)) :=
  if st.aug then
    if 1 < st.cfg.AUG.NUM_SAMPLE then
      match pyGet st._labels index with
      | none => .error .indexError
      | some lv =>
        let ns := st.cfg.AUG.NUM_SAMPLE
        .ok [ .frameList ((List.range ns).map (fun s => env.pack (env.aug_frame p s f))),
              .labelList ((List.range ns).map (fun _ => lv)),
              .idxList ((List.range ns).map (fun _ => index)),
              .emptyDict ]
    else finishSingle env st index (env.aug_frame p 0 f)
  else finishSingle env st index (env.transform p f)

/-- The retry loop of `__getitem__` (lines 123–209), by fuel
(`remaining = self._num_retries - i_try`).  Each attempt reads
`self._path_to_videos[index]` (an out-of-range index escapes as
`IndexError`, re-raised from the warning f-string in the `except` handler);
a failed container load after more than half the retries substitutes a
random index in `train`/`val` mode and `index - 1` in `test` mode; a failed
decode substitutes a random index in `train`/`val` mode only.  When the fuel
runs out the final `raise RuntimeError(...)` itself reads
`self._path_to_videos[index]` for its message.  Passing `decoder.decode` the
argument `video_meta=self._video_meta[index]` raises `KeyError` unless
`0 ≤ index < len` (the dict's key set after construction).  The second
result component counts the attempts performed. -/
def getitemLoop {F G : Type} (env : GetEnv F G) (st : HvuState) (p : SampleParams) :
    Nat → Nat → Int → Except PyError (List (PyComp G)) × Nat
  | 0, _, index =>
    (match pyGet st._path_to_videos index with
     | some _ => .error .runtimeError
     | none => .error .indexError, 0)
  | fuel + 1, iTry, index =>
    match pyGet st._path_to_videos index with
    | none => (.error .indexError, 1)
    | some _ =>
      if env.container_ok iTry index then
        if index < 0 ∨ (st._path_to_videos.length : Int) ≤ index then
          (.error .keyError, 1)
        else
          match env.decode_result iTry index with
          | some f => (returnSuccess env st p index f, 1)
          | none =>
            let index' : Int :=
              if st.mode ≠ "test" ∧ st._num_retries / 2 < iTry
              then (env.randint iTry : Int) else index
            let r := getitemLoop env st p fuel (iTry + 1) index'
            (r.1, r.2 + 1)
      else
        let index' : Int :=
          if st.mode ≠ "test" ∧ st._num_retries / 2 < iTry then (env.randint iTry : Int)
          else if st.mode = "test" ∧ st._num_retries / 2 < iTry then index - 1
          else index
        let r := getitemLoop env st p fuel (iTry + 1) index'
        (r.1, r.2 + 1)

/-- `Hvu.__getitem__(index)`; a tuple argument `(index, short_cycle_idx)` is
modelled by the optional `short_cycle_idx`.  Computes the sampling
parameters, then runs the retry loop for `self._num_retries` attempts. -/
def getitem {F G : Type} (env : GetEnv F G) (st : HvuState) (index : Int)
    (short_cycle_idx : Option Nat) : Except PyError (List (PyComp G)) × Nat :=
  match computeParams st index short_cycle_idx with
  | .error e => (.error e, 0)
  | .ok p => getitemLoop env st p st._num_retries 0 index

/-- The label vectors occurring in a returned tuple (the `labels` component,
or the entries of the `label_list` component in the multi-sample branch). -/
def labelsComponents {G : Type} : List (PyComp G) → List (List ℚ)
  | [] => []
  | .labels l :: rest => l :: labelsComponents rest
  | .labelList ls :: rest => ls ++ labelsComponents rest
  | _ :: rest => labelsComponents rest

/-! ## `extract_clip/extract.py` -/

namespace Extract

/-- The keys the script drops after the rename. -/
def excluded : List String := ["proj", "ln_post.weight", "ln_post.bias"]

/-- `OrderedDict` assignment `d[k] = v`: overwrite in place if the key is
present, else append. -/
def odSet {V : Type} (d : List (String × V)) (k : String) (v : V) :
    List (String × V) :=
  if d.any (fun kv => kv.1 = k) then
    d.map (fun kv => if kv.1 = k then (k, v) else kv)
  else d ++ [(k, v)]

/-- `'visual.' in k`. -/
def visualIn (k : String) : Bool := containsSub "visual.".data k.data

/-- The filter condition of the script's loop body:
`'visual.' in k` and `k[7:] not in ["proj", "ln_post.weight", "ln_post.bias"]`. -/
def keep (k : String) : Bool := visualIn k && !(excluded.contains (pyDrop 7 k))

/-- The script's loop over `model.state_dict().items()` building
`new_state_dict` (state dicts as ordered association lists). -/
def extractLoop {V : Type} (sd : List (String × V)) : List (String × V) :=
  sd.foldl
    (fun acc kv => if keep kv.1 then odSet acc (pyDrop 7 kv.1) kv.2 else acc)
    []

/-- The claim's description of the saved state dict: a pure filter-and-rename
of the model state dict — keep exactly the entries whose key contains
`'visual.'` and whose renamed key `k[7:]` is not excluded, rename each such
key to `k[7:]`, and keep every tensor value unmodified. -/
def extractSpec {V : Type} (sd : List (String × V)) : List (String × V) :=
  sd.filterMap (fun kv => if keep kv.1 then some (pyDrop 7 kv.1, kv.2) else none)

end Extract

/-! ## Number of index decrements of the test-mode fallback

`decs nr iTry fuel` counts the attempts `t ∈ [iTry, iTry + fuel)` with
`t > nr // 2`, i.e. how many times the remaining `fuel` attempts of the
retry loop run their "more than half the retries failed" fallback. -/

def decs (nr : Nat) : Nat → Nat → Nat
  | _, 0 => 0
  | iTry, fuel + 1 => (if nr / 2 < iTry then 1 else 0) + decs nr (iTry + 1) fuel

/-! ## Concrete inputs used by the witnesses -/

/-- A small concrete configuration node. -/
def wCfg : Cfg :=
  ⟨⟨4⟩, ⟨2, 3⟩, ⟨"/d", " ", "", (256, 320), 224, 224⟩,
   ⟨[mkRat 1 2, mkRat 707 1000], 224⟩, ⟨false, 0, 1⟩⟩

/-- A small concrete split file (two CSV lines). -/
def wLines : List String := ["v1.mp4 0|2", "v2.mp4 1"]

/-- The dataset state `hvuInit wCfg "test" 10 (some wLines)` constructs. -/
def wSt : HvuState :=
  { cfg := wCfg
    mode := "test"
    _num_retries := 10
    _num_clips := 6
    _path_to_videos := List.replicate 6 "v1.mp4" ++ List.replicate 6 "v2.mp4"
    _labels := List.replicate 6 [1, 0, 1, 0] ++ List.replicate 6 [0, 1, 0, 0]
    _spatial_temporal_idx := [0, 1, 2, 3, 4, 5, 0, 1, 2, 3, 4, 5]
    aug := false
    rand_erase := false }

/-- `wCfg` after the `train`/`val` mutation of `__init__`. -/
def wCfgT : Cfg :=
  ⟨⟨4⟩, ⟨1, 1⟩, ⟨"/d", " ", "", (256, 320), 224, 224⟩,
   ⟨[mkRat 1 2, mkRat 707 1000], 224⟩, ⟨false, 0, 1⟩⟩

/-- The dataset state `hvuInit wCfg "train" 10 (some wLines)` constructs. -/
def wStTrain : HvuState :=
  { cfg := wCfgT
    mode := "train"
    _num_retries := 10
    _num_clips := 1
    _path_to_videos := ["v1.mp4", "v2.mp4"]
    _labels := [[1, 0, 1, 0], [0, 1, 0, 0]]
    _spatial_temporal_idx := [0, 0]
    aug := false
    rand_erase := false }

/-- A concrete sampling-parameter record (the `train` defaults of `wCfg`). -/
def wParams : SampleParams := ⟨-1, -1, 256, 320, 224⟩

/-- A one-line split file (a single video, a single label). -/
def wLines1 : List String := ["v1.mp4 0"]

/-- The dataset state `hvuInit wCfgT "test" 10 (some wLines1)` constructs:
one clip entry in total (`NUM_ENSEMBLE_VIEWS = NUM_SPATIAL_CROPS = 1`). -/
def wSt1 : HvuState :=
  { cfg := wCfgT
    mode := "test"
    _num_retries := 10
    _num_clips := 1
    _path_to_videos := ["v1.mp4"]
    _labels := [[1, 0, 0, 0]]
    _spatial_temporal_idx := [0]
    aug := false
    rand_erase := false }

/-- An oracle environment where every load and decode succeeds. -/
def wEnvOk : GetEnv Nat Nat :=
  ⟨fun _ _ => true, fun _ _ => some 7, fun _ => 0, fun _ s f => f + s,
   fun _ f => f * 10, fun f => f + 100⟩

/-- An oracle environment where every container load fails. -/
def wEnvFail : GetEnv Nat Nat :=
  ⟨fun _ _ => false, fun _ _ => none, fun _ => 0, fun _ s f => f + s,
   fun _ f => f * 10, fun f => f + 100⟩

/-- An oracle environment where every container load succeeds but every
decode fails. -/
def wEnvDecFail : GetEnv Nat Nat :=
  ⟨fun _ _ => true, fun _ _ => none, fun _ => 0, fun _ s f => f + s,
   fun _ f => f * 10, fun f => f + 100⟩

/-- A small concrete state dict for the extraction script. -/
def wSd : List (String × Nat) :=
  [("visual.conv1.weight", 1), ("transformer.w", 2), ("visual.proj", 3),
   ("visual.ln_post.weight", 4), ("visual.ln_post.bias", 5), ("logit_scale", 6),
   ("visual.ln_pre.weight", 7)]

/-! ## Helper lemmas on the Python primitives -/

theorem pyGet_natCast {α : Type} (l : List α) (i : Nat) :
    pyGet l (i : Int) = l[i]? := by
  unfold pyGet
  have h1 : ¬ ((i : Int) < 0) := by exact_mod_cast Int.not_lt.mpr (Int.natCast_nonneg i)
  simp [h1]

theorem pyGet_neg {α : Type} (l : List α) (i : Int) (h0 : i < 0)
    (h1 : -(l.length : Int) ≤ i) : pyGet l i = l[(i + l.length).toNat]? := by
  unfold pyGet
  have h2 : ¬ (i + (l.length : Int) < 0) := by omega
  simp [h0, h2]

theorem pyGet_isSome {α : Type} (l : List α) (i : Int)
    (h1 : -(l.length : Int) ≤ i) (h2 : i < l.length) : ∃ a, pyGet l i = some a := by
  rcases lt_or_le i 0 with hneg | hpos
  · rw [pyGet_neg l i hneg h1]
    have : (i + (l.length : Int)).toNat < l.length := by omega
    exact ⟨l[(i + l.length).toNat], List.getElem?_eq_getElem this⟩
  · obtain ⟨n, rfl⟩ := Int.eq_ofNat_of_zero_le hpos
    rw [pyGet_natCast]
    have : n < l.length := by exact_mod_cast h2
    exact ⟨l[n], List.getElem?_eq_getElem this⟩

theorem pySet_nonneg {α : Type} (l : List α) (i : Int) (a : α)
    (h0 : 0 ≤ i) (h1 : i < l.length) : pySet l i a = some (l.set i.toNat a) := by
  have h2 : ¬ (i < 0) := by omega
  have h4 : ¬ ((l.length : Int) ≤ i) := by omega
  simp [pySet, h2, h4]

/-! ## Helper lemmas on `mapME` and `entriesOf` -/

theorem mapME_length {α β : Type} (f : α → Except PyError β) :
    ∀ (l : List α) (bs : List β), mapME f l = .ok bs → bs.length = l.length := by
  intro l
  induction l with
  | nil => intro bs h; cases h; rfl
  | cons a as ih =>
    intro bs h
    unfold mapME at h
    cases hfa : f a with
    | error e => rw [hfa] at h; cases h
    | ok b =>
      cases hrest : mapME f as with
      | error e => rw [hfa, hrest] at h; cases h
      | ok bs' =>
        rw [hfa, hrest] at h
        cases h
        simp [ih bs' hrest]

theorem mapME_get {α β : Type} (f : α → Except PyError β) :
    ∀ (l : List α) (bs : List β) (j : Nat) (a : α), mapME f l = .ok bs →
      l[j]? = some a → ∃ b, f a = .ok b ∧ bs[j]? = some b := by
  intro l
  induction l with
  | nil => intro bs j a _ hj; simp at hj
  | cons x xs ih =>
    intro bs j a h hj
    unfold mapME at h
    cases hfa : f x with
    | error e => rw [hfa] at h; cases h
    | ok b =>
      cases hrest : mapME f xs with
      | error e => rw [hfa, hrest] at h; cases h
      | ok bs' =>
        rw [hfa, hrest] at h
        cases h
        cases j with
        | zero => simp at hj; subst hj; exact ⟨b, hfa, by simp⟩
        | succ j' =>
          simp only [List.getElem?_cons_succ] at hj ⊢
          exact ih bs' j' a hrest hj

theorem entriesOf_length (parsed : List (String × List ℚ)) (nc : Nat) :
    (entriesOf parsed nc).length = parsed.length * nc := by
  induction parsed with
  | nil => simp [entriesOf]
  | cons pe ps ih =>
    simp only [entriesOf, List.map_cons, List.flatten_cons, List.length_append,
      List.length_map, List.length_range, List.length_cons] at ih ⊢
    rw [ih]
    ring

theorem entriesOf_get (nc : Nat) :
    ∀ (parsed : List (String × List ℚ)) (j c : Nat) (pe : String × List ℚ),
      parsed[j]? = some pe → c < nc →
      (entriesOf parsed nc)[j * nc + c]? = some (pe.1, pe.2, c) := by
  intro parsed
  induction parsed with
  | nil => intro j c pe hj; simp at hj
  | cons q ps ih =>
    intro j c pe hj hc
    simp only [entriesOf, List.map_cons, List.flatten_cons]
    cases j with
    | zero =>
      simp only [List.getElem?_cons_zero, Option.some.injEq] at hj
      subst hj
      rw [List.getElem?_append_left (by simpa using hc)]
      simp [hc]
    | succ j' =>
      simp only [List.getElem?_cons_succ] at hj
      have hlen : ((List.range nc).map (fun idx => (q.1, q.2, idx))).length = nc := by
        simp
      rw [show (j' + 1) * nc + c = ((List.range nc).map (fun idx => (q.1, q.2, idx))).length + (j' * nc + c) by rw [hlen]; ring]
      rw [List.getElem?_append_right (by omega)]
      simpa using ih j' c pe hj hc


/-! ## Helper lemmas on `hvuInit` -/

theorem buildEntries_ok (cfg : Cfg) (nc : Nat) (lines : List String)
    (entries : List (String × List ℚ × Nat))
    (h : buildEntries cfg nc lines = .ok entries) :
    ∃ parsed, mapME (lineEntry cfg) lines = .ok parsed ∧
      entries = entriesOf parsed nc := by
  unfold buildEntries at h
  split at h
  · exact Except.noConfusion h
  · rename_i parsed heq
    exact ⟨parsed, heq, (Except.ok.inj h).symm⟩

theorem construct_loader_ok (cfg2 : Cfg) (nc : Nat) (file : Option (List String))
    (entries : List (String × List ℚ × Nat))
    (h : construct_loader cfg2 nc file = .ok entries) :
    ∃ lines, file = some lines ∧ buildEntries cfg2 nc lines = .ok entries ∧
      entries.length ≠ 0 := by
  cases file with
  | none => exact Except.noConfusion h
  | some lines =>
    simp only [construct_loader] at h
    split at h
    · exact Except.noConfusion h
    · rename_i entries' hbe
      split at h
      · exact Except.noConfusion h
      · rename_i hne
        have he := Except.ok.inj h
        subst he
        exact ⟨lines, rfl, hbe, hne⟩

theorem hvuInit_ok_spec (cfg : Cfg) (mode : String) (nr : Nat)
    (file : Option (List String)) (st : HvuState) (cfg2 : Cfg)
    (h : hvuInit cfg mode nr file = .ok (st, cfg2)) :
    ∃ lines parsed,
      file = some lines ∧
      (mode = "train" ∨ mode = "val" ∨ mode = "test") ∧
      st.mode = mode ∧ st._num_retries = nr ∧ st.cfg = cfg2 ∧
      cfg2 = initCfg cfg mode ∧
      st._num_clips = initNumClips cfg mode ∧
      mapME (lineEntry cfg2) lines = .ok parsed ∧
      st._path_to_videos = (entriesOf parsed st._num_clips).map (fun t => t.1) ∧
      st._labels = (entriesOf parsed st._num_clips).map (fun t => t.2.1) ∧
      st._spatial_temporal_idx = (entriesOf parsed st._num_clips).map (fun t => t.2.2) ∧
      0 < (entriesOf parsed st._num_clips).length := by
  unfold hvuInit at h
  split at h
  case isFalse => exact Except.noConfusion h
  case isTrue hmode =>
    split at h
    · exact Except.noConfusion h
    · rename_i entries hcl
      obtain ⟨lines, hfile, hbe, hne⟩ := construct_loader_ok _ _ _ _ hcl
      obtain ⟨parsed, hmap, hent⟩ := buildEntries_ok _ _ _ _ hbe
      simp only [Except.ok.injEq, Prod.mk.injEq] at h
      obtain ⟨hst, hcfg⟩ := h
      subst hcfg
      subst hst
      subst hent
      subst hfile
      exact ⟨lines, parsed, rfl, hmode, rfl, rfl, rfl, rfl, rfl, hmap, rfl, rfl,
        rfl, Nat.pos_of_ne_zero hne⟩

theorem hvuInit_stIdx (st : HvuState) (parsed : List (String × List ℚ))
    (hidx : st._spatial_temporal_idx = (entriesOf parsed st._num_clips).map (fun t => t.2.2))
    (hlen : st._spatial_temporal_idx.length = parsed.length * st._num_clips) :
    ∀ i : Nat, i < st._spatial_temporal_idx.length →
      st._spatial_temporal_idx[i]? = some (i % st._num_clips) := by
  intro i hi
  have hip : i < parsed.length * st._num_clips := by rw [← hlen]; exact hi
  have hncpos : 0 < st._num_clips := by
    rcases Nat.eq_zero_or_pos st._num_clips with h0 | h
    · rw [h0, Nat.mul_zero] at hip; omega
    · exact h
  have hj : i / st._num_clips < parsed.length :=
    Nat.div_lt_of_lt_mul (by rw [Nat.mul_comm] at hip; exact hip)
  have hpe : parsed[i / st._num_clips]? = some parsed[i / st._num_clips] :=
    List.getElem?_eq_getElem hj
  have hget := entriesOf_get st._num_clips parsed (i / st._num_clips)
    (i % st._num_clips) _ hpe (Nat.mod_lt _ hncpos)
  rw [Nat.div_add_mod'] at hget
  rw [hidx, List.getElem?_map, hget]
  rfl

/-! ## Helper lemmas on the one-hot label vector -/

theorem setLabels_spec :
    ∀ (L : List Int) (v : List ℚ), (∀ l ∈ L, 0 ≤ l ∧ l < (v.length : Int)) →
      ∃ v', setLabels v L = .ok v' ∧ v'.length = v.length ∧
        ∀ i : Nat, i < v.length →
          v'[i]? = if (i : Int) ∈ L then some 1 else v[i]? := by
  intro L
  induction L with
  | nil =>
    intro v _
    exact ⟨v, rfl, rfl, fun i _ => by simp⟩
  | cons l ls ih =>
    intro v hL
    obtain ⟨hl0, hl1⟩ := hL l (List.mem_cons_self l ls)
    have hset := pySet_nonneg v l 1 hl0 hl1
    have hlen : (v.set l.toNat 1).length = v.length := by simp
    obtain ⟨v', hok, hlen', hval⟩ := ih (v.set l.toNat 1) (by
      rw [hlen]
      exact fun x hx => hL x (List.mem_cons_of_mem l hx))
    refine ⟨v', ?_, by rw [hlen', hlen], ?_⟩
    · unfold setLabels
      rw [hset]
      exact hok
    · intro i hi
      rw [hlen] at hval
      rw [hval i hi]
      by_cases hmem : (i : Int) ∈ ls
      · have hmem2 : (i : Int) ∈ l :: ls := List.mem_cons_of_mem l hmem
        simp [hmem, hmem2]
      · by_cases hil : (i : Int) = l
        · have hmem2 : (i : Int) ∈ l :: ls := by
            rw [List.mem_cons]; exact Or.inl hil
          have hti : l.toNat = i := by omega
          simp only [hmem, if_false, hmem2, if_true]
          rw [hti]
          exact List.getElem?_set_eq_of_lt 1 hi
        · have hmem2 : ¬ ((i : Int) ∈ l :: ls) := by
            rw [List.mem_cons]; push_neg; exact ⟨hil, hmem⟩
          simp only [hmem, if_false, hmem2]
          exact List.getElem?_set_ne (by omega)

theorem oneHot_spec (n : Nat) (L : List Int)
    (hL : ∀ l ∈ L, 0 ≤ l ∧ l < (n : Int)) :
    ∃ v, oneHot n L = .ok v ∧ v.length = n ∧
      ∀ i : Nat, i < n → v[i]? = some (if (i : Int) ∈ L then 1 else 0) := by
  obtain ⟨v, hok, hlen, hval⟩ := setLabels_spec L (List.replicate n 0) (by
    simpa using hL)
  refine ⟨v, hok, by simpa using hlen, fun i hi => ?_⟩
  rw [hval i (by simpa using hi)]
  by_cases hmem : (i : Int) ∈ L
  · simp [hmem]
  · simp [hmem, List.getElem?_replicate, hi]

/-! ## Helper lemmas on `__getitem__` -/

theorem computeParams_train (st : HvuState) (index : Int) (sc : Option Nat)
    (hm : st.mode = "train") : computeParams st index sc = trainParams st.cfg sc := by
  simp [computeParams, hm]

theorem trainParams_none (cfg : Cfg) :
    trainParams cfg none = .ok
      ⟨-1, -1,
       (if 0 < cfg.MULTIGRID.DEFAULT_S then
          pyRound ((cfg.DATA.TRAIN_JITTER_SCALES.1 : ℚ) * (cfg.DATA.TRAIN_CROP_SIZE : ℚ)
            / (cfg.MULTIGRID.DEFAULT_S : ℚ))
        else cfg.DATA.TRAIN_JITTER_SCALES.1),
       cfg.DATA.TRAIN_JITTER_SCALES.2, cfg.DATA.TRAIN_CROP_SIZE⟩ := by
  simp [trainParams]

theorem testValParams_eq (st : HvuState) (i v : Nat)
    (hv : st._spatial_temporal_idx[i]? = some v)
    (hC : st.cfg.TEST.NUM_SPATIAL_CROPS ≠ 0) :
    testValParams st i = .ok
      ⟨((v / st.cfg.TEST.NUM_SPATIAL_CROPS : Nat) : Int),
       (if 1 < st.cfg.TEST.NUM_SPATIAL_CROPS
        then ((v % st.cfg.TEST.NUM_SPATIAL_CROPS : Nat) : Int) else 1),
       st.cfg.DATA.TEST_CROP_SIZE, st.cfg.DATA.TEST_CROP_SIZE,
       st.cfg.DATA.TEST_CROP_SIZE⟩ := by
  unfold testValParams
  rw [pyGet_natCast, hv]
  simp [hC]

theorem getitemLoop_count {F G : Type} (env : GetEnv F G) (st : HvuState)
    (p : SampleParams) :
    ∀ (fuel iTry : Nat) (index : Int),
      (getitemLoop env st p fuel iTry index).2 ≤ fuel := by
  intro fuel
  induction fuel with
  | zero => intro iTry index; simp [getitemLoop]
  | succ fuel ih =>
    intro iTry index
    simp only [getitemLoop]
    cases pyGet st._path_to_videos index with
    | none => simp
    | some a =>
      simp only
      cases hc : env.container_ok iTry index with
      | false =>
        simp only [hc, Bool.false_eq_true, if_false]
        split
        · exact Nat.succ_le_succ (ih _ _)
        · split
          · exact Nat.succ_le_succ (ih _ _)
          · exact Nat.succ_le_succ (ih _ _)
      | true =>
        simp only [hc, if_true]
        split
        · simp
        · cases hd : env.decode_result iTry index with
          | some f => simp
          | none =>
            simp only
            split
            · exact Nat.succ_le_succ (ih _ _)
            · exact Nat.succ_le_succ (ih _ _)

theorem getitemLoop_first_success {F G : Type} (env : GetEnv F G) (st : HvuState)
    (p : SampleParams) (fuel iTry : Nat) (index : Int) (f : F)
    (hc : env.container_ok iTry index = true)
    (hd : env.decode_result iTry index = some f)
    (h0 : 0 ≤ index) (h1 : index < st._path_to_videos.length) :
    getitemLoop env st p (fuel + 1) iTry index = (returnSuccess env st p index f, 1) := by
  obtain ⟨a, ha⟩ := pyGet_isSome st._path_to_videos index (by omega) h1
  simp only [getitemLoop]
  rw [ha]
  simp only [hc, if_true]
  rw [if_neg (by omega)]
  rw [hd]

theorem returnSuccess_ok_shape {F G : Type} (env : GetEnv F G) (st : HvuState)
    (p : SampleParams) (index : Int) (f : F) (ret : List (PyComp G))
    (h : returnSuccess env st p index f = .ok ret) :
    ∃ lv, pyGet st._labels index = some lv ∧
      ((∃ g, ret = [.frames g, .labels lv, .idx index, .emptyDict]) ∨
       (1 < st.cfg.AUG.NUM_SAMPLE ∧ ∃ gs,
         ret = [.frameList gs,
                .labelList (List.replicate st.cfg.AUG.NUM_SAMPLE lv),
                .idxList (List.replicate st.cfg.AUG.NUM_SAMPLE index),
                .emptyDict])) := by
  unfold returnSuccess finishSingle at h
  split at h
  · split at h
    · rename_i hns
      cases hlv : pyGet st._labels index with
      | none => rw [hlv] at h; exact Except.noConfusion h
      | some lv =>
        rw [hlv] at h
        refine ⟨lv, rfl, Or.inr ⟨hns, ⟨(List.range st.cfg.AUG.NUM_SAMPLE).map
          (fun s => env.pack (env.aug_frame p s f)), ?_⟩⟩⟩
        have hr := Except.ok.inj h
        rw [← hr]
        have hmap1 : (List.range st.cfg.AUG.NUM_SAMPLE).map (fun _ => lv)
            = List.replicate st.cfg.AUG.NUM_SAMPLE lv := by
          rw [List.map_const']
          simp
        have hmap2 : (List.range st.cfg.AUG.NUM_SAMPLE).map (fun _ => index)
            = List.replicate st.cfg.AUG.NUM_SAMPLE index := by
          rw [List.map_const']
          simp
        rw [hmap1, hmap2]
    · cases hlv : pyGet st._labels index with
      | none => rw [hlv] at h; exact Except.noConfusion h
      | some lv =>
        rw [hlv] at h
        exact ⟨lv, rfl, Or.inl ⟨env.pack (env.aug_frame p 0 f), (Except.ok.inj h).symm⟩⟩
  · cases hlv : pyGet st._labels index with
    | none => rw [hlv] at h; exact Except.noConfusion h
    | some lv =>
      rw [hlv] at h
      exact ⟨lv, rfl, Or.inl ⟨env.pack (env.transform p f), (Except.ok.inj h).symm⟩⟩

theorem returnSuccess_ok {F G : Type} (env : GetEnv F G) (st : HvuState)
    (p : SampleParams) (index : Int) (f : F) (lv : List ℚ)
    (hlv : pyGet st._labels index = some lv) :
    ∃ ret, returnSuccess env st p index f = .ok ret ∧ ret ≠ [] ∧
      labelsComponents ret ≠ [] ∧
      ∀ l ∈ labelsComponents ret, l = lv := by
  unfold returnSuccess finishSingle
  split
  · split
    · rename_i hns
      rw [hlv]
      refine ⟨_, rfl, by simp, ?_, ?_⟩
      · simp only [labelsComponents]
        intro hemp
        rw [List.append_eq_nil] at hemp
        have : st.cfg.AUG.NUM_SAMPLE ≠ 0 := by omega
        simp [this] at hemp
      · intro l hl
        simp only [labelsComponents] at hl
        rw [List.mem_append] at hl
        rcases hl with hl | hl
        · simp at hl
          exact hl.2
        · simp [labelsComponents] at hl
    · rw [hlv]
      exact ⟨_, rfl, by simp, by simp [labelsComponents], by simp [labelsComponents]⟩
  · rw [hlv]
    exact ⟨_, rfl, by simp, by simp [labelsComponents], by simp [labelsComponents]⟩

theorem getitemLoop_ok_shape {F G : Type} (env : GetEnv F G) (st : HvuState)
    (p : SampleParams) :
    ∀ (fuel iTry : Nat) (index : Int) (ret : List (PyComp G)),
      (getitemLoop env st p fuel iTry index).1 = .ok ret →
      ∃ (i : Int) (lv : List ℚ), pyGet st._labels i = some lv ∧
        ((∃ g, ret = [.frames g, .labels lv, .idx i, .emptyDict]) ∨
         (1 < st.cfg.AUG.NUM_SAMPLE ∧ ∃ gs,
           ret = [.frameList gs,
                  .labelList (List.replicate st.cfg.AUG.NUM_SAMPLE lv),
                  .idxList (List.replicate st.cfg.AUG.NUM_SAMPLE i),
                  .emptyDict])) := by
  intro fuel
  induction fuel with
  | zero =>
    intro iTry index ret h
    simp only [getitemLoop] at h
    cases hg : pyGet st._path_to_videos index with
    | none => rw [hg] at h; exact Except.noConfusion h
    | some a => rw [hg] at h; exact Except.noConfusion h
  | succ fuel ih =>
    intro iTry index ret h
    simp only [getitemLoop] at h
    cases hg : pyGet st._path_to_videos index with
    | none => rw [hg] at h; exact Except.noConfusion h
    | some a =>
      rw [hg] at h
      simp only at h
      cases hc : env.container_ok iTry index with
      | false =>
        simp only [hc, Bool.false_eq_true, if_false] at h
        exact ih _ _ _ h
      | true =>
        simp only [hc, if_true] at h
        split at h
        · exact Except.noConfusion h
        · cases hd : env.decode_result iTry index with
          | some f =>
            rw [hd] at h
            simp only at h
            obtain ⟨lv, hlv, hsh⟩ := returnSuccess_ok_shape env st p index f ret h
            exact ⟨index, lv, hlv, hsh⟩
          | none =>
            rw [hd] at h
            simp only at h
            exact ih _ _ _ h

theorem getitemLoop_allfail_tv {F G : Type} (env : GetEnv F G) (st : HvuState)
    (p : SampleParams)
    (hm : st.mode = "train" ∨ st.mode = "val")
    (hfail : ∀ (t : Nat) (idx : Int),
      env.container_ok t idx = false ∨ env.decode_result t idx = none)
    (hrand : ∀ t : Nat, env.randint t < st._path_to_videos.length) :
    ∀ (fuel iTry : Nat) (index : Int), 0 ≤ index →
      index < st._path_to_videos.length →
      getitemLoop env st p fuel iTry index = (.error .runtimeError, fuel) := by
  have hmt : st.mode ≠ "test" := by
    rcases hm with h | h <;> rw [h] <;> decide
  intro fuel
  induction fuel with
  | zero =>
    intro iTry index h0 h1
    obtain ⟨a, ha⟩ := pyGet_isSome st._path_to_videos index (by omega) h1
    simp only [getitemLoop]
    rw [ha]
  | succ fuel ih =>
    intro iTry index h0 h1
    obtain ⟨a, ha⟩ := pyGet_isSome st._path_to_videos index (by omega) h1
    simp only [getitemLoop]
    rw [ha]
    simp only
    have hnext : ∀ index' : Int, 0 ≤ index' → index' < st._path_to_videos.length →
        getitemLoop env st p fuel (iTry + 1) index' = (.error .runtimeError, fuel) :=
      fun index' => ih (iTry + 1) index'
    by_cases hh : st._num_retries / 2 < iTry
    · cases hcf : env.container_ok iTry index with
      | false =>
        simp only [hcf, Bool.false_eq_true, if_false]
        rw [if_pos ⟨hmt, hh⟩]
        rw [hnext _ (by omega) (by exact_mod_cast hrand iTry)]
      | true =>
        rcases hfail iTry index with hcf' | hd
        · rw [hcf] at hcf'; exact Bool.noConfusion hcf'
        · simp only [hcf, if_true]
          rw [if_neg (by omega)]
          rw [hd]
          simp only
          rw [if_pos ⟨hmt, hh⟩]
          rw [hnext _ (by omega) (by exact_mod_cast hrand iTry)]
    · have hA : ¬ (st.mode ≠ "test" ∧ st._num_retries / 2 < iTry) := by
        intro hand; exact hh hand.2
      have hB : ¬ (st.mode = "test" ∧ st._num_retries / 2 < iTry) := by
        intro hand; exact hmt hand.1
      cases hcf : env.container_ok iTry index with
      | false =>
        simp only [hcf, Bool.false_eq_true, if_false]
        rw [if_neg hA, if_neg hB]
        rw [hnext _ h0 h1]
      | true =>
        rcases hfail iTry index with hcf' | hd
        · rw [hcf] at hcf'; exact Bool.noConfusion hcf'
        · simp only [hcf, if_true]
          rw [if_neg (by omega)]
          rw [hd]
          simp only
          rw [if_neg hA]
          rw [hnext _ h0 h1]

theorem getitemLoop_allfail_test {F G : Type} (env : GetEnv F G) (st : HvuState)
    (p : SampleParams)
    (hm : st.mode = "test")
    (hfail : ∀ (t : Nat) (idx : Int), env.container_ok t idx = false) :
    ∀ (fuel iTry : Nat) (index : Int),
      -(st._path_to_videos.length : Int) ≤ index →
      index < st._path_to_videos.length →
      -(st._path_to_videos.length : Int) ≤ index - decs st._num_retries iTry fuel →
      getitemLoop env st p fuel iTry index = (.error .runtimeError, fuel) := by
  have hmt : ¬ (st.mode ≠ "test") := by rw [hm]; simp
  intro fuel
  induction fuel with
  | zero =>
    intro iTry index h0 h1 _
    obtain ⟨a, ha⟩ := pyGet_isSome st._path_to_videos index h0 h1
    simp only [getitemLoop]
    rw [ha]
  | succ fuel ih =>
    intro iTry index h0 h1 h2
    obtain ⟨a, ha⟩ := pyGet_isSome st._path_to_videos index h0 h1
    simp only [getitemLoop]
    rw [ha]
    simp only [hfail iTry index, Bool.false_eq_true, if_false]
    have hA : ¬ (st.mode ≠ "test" ∧ st._num_retries / 2 < iTry) := by
      intro hand; exact hmt hand.1
    rw [if_neg hA]
    simp only [decs] at h2
    have hd0 : 0 ≤ decs st._num_retries (iTry + 1) fuel := Nat.zero_le _
    by_cases hh : st._num_retries / 2 < iTry
    · rw [if_pos ⟨hm, hh⟩]
      rw [if_pos hh] at h2
      rw [ih (iTry + 1) (index - 1) (by omega) (by omega) (by omega)]
    · rw [if_neg (fun hand => hh hand.2)]
      rw [if_neg hh] at h2
      rw [ih (iTry + 1) index h0 h1 (by omega)]

theorem pyGet_none_of_lt {α : Type} (l : List α) (i : Int)
    (h : i < -(l.length : Int)) : pyGet l i = none := by
  have h0 : i < 0 := by omega
  have h1 : i + (l.length : Int) < 0 := by omega
  simp [pyGet, h0, h1]

theorem getitemLoop_invalid_index {F G : Type} (env : GetEnv F G) (st : HvuState)
    (p : SampleParams) (fuel iTry : Nat) (index : Int)
    (h : index < -(st._path_to_videos.length : Int)) :
    (getitemLoop env st p fuel iTry index).1 = .error .indexError := by
  have hg := pyGet_none_of_lt st._path_to_videos index h
  cases fuel with
  | zero => simp only [getitemLoop]; rw [hg]
  | succ fuel => simp only [getitemLoop]; rw [hg]

theorem getitemLoop_allfail_test_overflow {F G : Type} (env : GetEnv F G)
    (st : HvuState) (p : SampleParams)
    (hm : st.mode = "test")
    (hfail : ∀ (t : Nat) (idx : Int), env.container_ok t idx = false) :
    ∀ (fuel iTry : Nat) (index : Int),
      -(st._path_to_videos.length : Int) ≤ index →
      index < st._path_to_videos.length →
      index - decs st._num_retries iTry fuel < -(st._path_to_videos.length : Int) →
      (getitemLoop env st p fuel iTry index).1 = .error .indexError := by
  intro fuel
  induction fuel with
  | zero =>
    intro iTry index h0 h1 h2
    exfalso
    simp only [decs] at h2
    omega
  | succ fuel ih =>
    intro iTry index h0 h1 h2
    obtain ⟨a, ha⟩ := pyGet_isSome st._path_to_videos index h0 h1
    simp only [getitemLoop]
    rw [ha]
    simp only [hfail iTry index, Bool.false_eq_true, if_false]
    rw [if_neg (fun hand => hand.1 hm)]
    simp only [decs] at h2
    by_cases hh : st._num_retries / 2 < iTry
    · rw [if_pos ⟨hm, hh⟩]
      rw [if_pos hh] at h2
      by_cases hv : -(st._path_to_videos.length : Int) ≤ index - 1
      · exact ih (iTry + 1) (index - 1) hv (by omega) (by omega)
      · exact getitemLoop_invalid_index env st p fuel (iTry + 1) (index - 1) (by omega)
    · rw [if_neg (fun hand => hh hand.2)]
      rw [if_neg hh] at h2
      exact ih (iTry + 1) index h0 h1 (by omega)

theorem getitemLoop_decodefail_test {F G : Type} (env : GetEnv F G)
    (st : HvuState) (p : SampleParams)
    (hm : st.mode = "test")
    (hcont : ∀ (t : Nat) (idx : Int), env.container_ok t idx = true)
    (hdec : ∀ (t : Nat) (idx : Int), env.decode_result t idx = none) :
    ∀ (fuel iTry : Nat) (index : Int), 0 ≤ index →
      index < st._path_to_videos.length →
      getitemLoop env st p fuel iTry index = (.error .runtimeError, fuel) := by
  intro fuel
  induction fuel with
  | zero =>
    intro iTry index h0 h1
    obtain ⟨a, ha⟩ := pyGet_isSome st._path_to_videos index (by omega) h1
    simp only [getitemLoop]
    rw [ha]
  | succ fuel ih =>
    intro iTry index h0 h1
    obtain ⟨a, ha⟩ := pyGet_isSome st._path_to_videos index (by omega) h1
    simp only [getitemLoop]
    rw [ha]
    simp only [hcont iTry index, if_true]
    rw [if_neg (by omega)]
    rw [hdec iTry index]
    simp only
    rw [if_neg (fun hand => hand.1 hm)]
    rw [ih (iTry + 1) index h0 h1]

theorem getitemLoop_test_step {F G : Type} (env : GetEnv F G) (st : HvuState)
    (p : SampleParams) (hm : st.mode = "test")
    (hc : env.container_ok (st._num_retries / 2 + 1) 0 = false)
    (hlen : 0 < st._path_to_videos.length) (fuel : Nat) :
    getitemLoop env st p (fuel + 1) (st._num_retries / 2 + 1) 0 =
      ((getitemLoop env st p fuel (st._num_retries / 2 + 2) (-1)).1,
       (getitemLoop env st p fuel (st._num_retries / 2 + 2) (-1)).2 + 1) := by
  obtain ⟨a, ha⟩ := pyGet_isSome st._path_to_videos 0 (by omega)
    (by exact_mod_cast hlen)
  simp only [getitemLoop]
  rw [ha]
  simp only [hc, Bool.false_eq_true, if_false]
  have hA : ¬ (st.mode ≠ "test" ∧ st._num_retries / 2 < st._num_retries / 2 + 1) := by
    rw [hm]; simp
  rw [if_neg hA, if_pos ⟨hm, Nat.lt_succ_self _⟩]
  norm_num

theorem pyGet_neg_one_getLast {α : Type} (l : List α) (hlen : 0 < l.length) :
    pyGet l (-1) = l.getLast? := by
  rw [pyGet_neg l (-1) (by omega) (by omega)]
  have ht : ((-1 : Int) + l.length).toNat = l.length - 1 := by omega
  rw [ht, List.getLast?_eq_getElem?]

/-! ## Helper lemmas on the extraction script -/

namespace Extract

theorem odSet_notmem {V : Type} (d : List (String × V)) (k : String) (v : V)
    (h : ∀ kv ∈ d, kv.1 ≠ k) : odSet d k v = d ++ [(k, v)] := by
  have hany : d.any (fun kv => kv.1 = k) = false := by
    rw [List.any_eq_false]
    intro kv hkv
    simp [h kv hkv]
  simp [odSet, hany]

theorem extractSpec_cons_pos {V : Type} (kv : String × V) (sd : List (String × V))
    (hk : keep kv.1 = true) :
    extractSpec (kv :: sd) = (pyDrop 7 kv.1, kv.2) :: extractSpec sd := by
  simp [extractSpec, List.filterMap_cons, hk]

theorem extractSpec_cons_neg {V : Type} (kv : String × V) (sd : List (String × V))
    (hk : keep kv.1 = false) :
    extractSpec (kv :: sd) = extractSpec sd := by
  simp [extractSpec, List.filterMap_cons, hk]

theorem extractLoop_aux {V : Type} :
    ∀ (sd acc : List (String × V)),
      (acc.map Prod.fst ++ (extractSpec sd).map Prod.fst).Nodup →
      sd.foldl (fun a kv => if keep kv.1 then odSet a (pyDrop 7 kv.1) kv.2 else a) acc
        = acc ++ extractSpec sd := by
  intro sd
  induction sd with
  | nil => intro acc _; simp [extractSpec]
  | cons kv sd ih =>
    intro acc h
    simp only [List.foldl_cons]
    cases hk : keep kv.1 with
    | false =>
      rw [extractSpec_cons_neg kv sd hk] at h ⊢
      rw [if_neg (by simp [hk])]
      exact ih acc h
    | true =>
      rw [extractSpec_cons_pos kv sd hk] at h ⊢
      rw [if_pos (by simp [hk])]
      have hdisj := (List.nodup_append.mp h).2.2
      have hknot : ∀ kv2 ∈ acc, kv2.1 ≠ pyDrop 7 kv.1 := by
        intro kv2 hkv2 heq
        exact hdisj (List.mem_map_of_mem Prod.fst hkv2) (by rw [heq]; simp)
      rw [odSet_notmem acc (pyDrop 7 kv.1) kv.2 hknot]
      have hperm : (acc ++ [(pyDrop 7 kv.1, kv.2)]).map Prod.fst
            ++ (extractSpec sd).map Prod.fst
          = acc.map Prod.fst
            ++ ((pyDrop 7 kv.1, kv.2) :: extractSpec sd).map Prod.fst := by
        simp [List.map_append, List.append_assoc]
      rw [ih (acc ++ [(pyDrop 7 kv.1, kv.2)]) (by rw [hperm]; exact h)]
      simp

end Extract

/-! ## Helper lemmas for construction failure modes -/

theorem hvuInit_none_file (cfg : Cfg) (mode : String) (nr : Nat) :
    hvuInit cfg mode nr none = .error .assertionError := by
  unfold hvuInit
  split <;> rfl

theorem hvuInit_invalid_mode (cfg : Cfg) (mode : String) (nr : Nat)
    (file : Option (List String))
    (h : ¬ (mode = "train" ∨ mode = "val" ∨ mode = "test")) :
    hvuInit cfg mode nr file = .error .assertionError := by
  unfold hvuInit
  rw [if_neg h]

theorem hvuInit_empty_entries (cfg : Cfg) (mode : String) (nr : Nat)
    (lines : List String)
    (h : buildEntries (initCfg cfg mode) (initNumClips cfg mode) lines = .ok []) :
    hvuInit cfg mode nr (some lines) = .error .assertionError := by
  have hcl : construct_loader (initCfg cfg mode) (initNumClips cfg mode) (some lines)
      = .error .assertionError := by
    simp only [construct_loader]
    rw [h]
    rfl
  unfold hvuInit
  split
  · rw [hcl]
  · rfl

/-! ## Claim theorems -/

/-- C7: `Hvu.__init__` accepts exactly the modes `train`, `val`, `test`:
any other mode string fails with an `AssertionError` before any data is read
(the result is the same assertion error whatever the split file holds);
a successful construction implies the split file exists and produced at
least one video entry; a missing split file, or a file whose processed entry
list is empty, makes construction fail with an `AssertionError`. -/
theorem hvu_init_mode_and_nonempty :
    (∀ (cfg : Cfg) (mode : String) (nr : Nat) (file : Option (List String)),
      ¬ (mode = "train" ∨ mode = "val" ∨ mode = "test") →
      hvuInit cfg mode nr file = .error .assertionError) ∧
    (∀ (cfg : Cfg) (mode : String) (nr : Nat) (file : Option (List String))
       (st : HvuState) (cfg2 : Cfg), hvuInit cfg mode nr file = .ok (st, cfg2) →
      (mode = "train" ∨ mode = "val" ∨ mode = "test") ∧
      ∃ lines, file = some lines ∧ 0 < hvuLen st) ∧
    (∀ (cfg : Cfg) (mode : String) (nr : Nat),
      hvuInit cfg mode nr none = .error .assertionError) ∧
    (∀ (cfg : Cfg) (mode : String) (nr : Nat) (lines : List String),
      buildEntries (initCfg cfg mode) (initNumClips cfg mode) lines = .ok [] →
      hvuInit cfg mode nr (some lines) = .error .assertionError) := by
  refine ⟨fun cfg mode nr file h => hvuInit_invalid_mode cfg mode nr file h,
    ?_, fun cfg mode nr => hvuInit_none_file cfg mode nr,
    fun cfg mode nr lines h => hvuInit_empty_entries cfg mode nr lines h⟩
  intro cfg mode nr file st cfg2 h
  obtain ⟨lines, parsed, hfile, hmode, _, _, _, _, _, _, hp, _, _, hpos⟩ :=
    hvuInit_ok_spec _ _ _ _ _ _ h
  refine ⟨hmode, lines, hfile, ?_⟩
  unfold hvuLen
  rw [hp, List.length_map]
  exact hpos

/-- C8: successful construction in `train`/`val` mode returns the caller's
configuration with `cfg.TEST.NUM_ENSEMBLE_VIEWS` and
`cfg.TEST.NUM_SPATIAL_CROPS` both overwritten with `1`; in `test` mode it
returns the configuration unchanged; and the `MODEL`, `DATA`, `MULTIGRID`
and `AUG` groups are never modified. -/
theorem hvu_init_cfg_mutation (cfg : Cfg) (mode : String) (nr : Nat)
    (file : Option (List String)) (st : HvuState) (cfg2 : Cfg)
    (h : hvuInit cfg mode nr file = .ok (st, cfg2)) :
    ((mode = "train" ∨ mode = "val") →
      cfg2 = { cfg with
        TEST := { cfg.TEST with NUM_ENSEMBLE_VIEWS := 1, NUM_SPATIAL_CROPS := 1 } } ∧
      cfg2.TEST.NUM_ENSEMBLE_VIEWS = 1 ∧ cfg2.TEST.NUM_SPATIAL_CROPS = 1) ∧
    (mode = "test" → cfg2 = cfg) ∧
    cfg2.MODEL = cfg.MODEL ∧ cfg2.DATA = cfg.DATA ∧
    cfg2.MULTIGRID = cfg.MULTIGRID ∧ cfg2.AUG = cfg.AUG := by
  obtain ⟨lines, parsed, _, hmode, _, _, _, hcfg2, _⟩ :=
    hvuInit_ok_spec _ _ _ _ _ _ h
  subst hcfg2
  unfold initCfg
  refine ⟨fun hm => ?_, fun hm => ?_, ?_⟩
  · rw [if_pos hm]
    exact ⟨rfl, rfl, rfl⟩
  · rw [if_neg (by subst hm; decide)]
  · by_cases hm : mode = "train" ∨ mode = "val"
    · rw [if_pos hm]
      exact ⟨rfl, rfl, rfl, rfl⟩
    · rw [if_neg hm]
      exact ⟨rfl, rfl, rfl, rfl⟩

/-- C9: after a successful construction, `_path_to_videos`, `_labels` and
`_spatial_temporal_idx` all have length `(number of CSV lines) * _num_clips`,
the length is positive, `__len__` and `num_videos` both return it, and for
every valid index `i` the stored clip index is `i % _num_clips`.  (The three
lists are built once by `_construct_loader` and no operation of the class
mutates them afterwards; in this embedding the state is a value that
`__getitem__` never rebuilds.) -/
theorem hvu_loader_invariants (cfg : Cfg) (mode : String) (nr : Nat)
    (lines : List String) (st : HvuState) (cfg2 : Cfg)
    (h : hvuInit cfg mode nr (some lines) = .ok (st, cfg2)) :
    st._path_to_videos.length = lines.length * st._num_clips ∧
    st._labels.length = st._path_to_videos.length ∧
    st._spatial_temporal_idx.length = st._path_to_videos.length ∧
    0 < st._path_to_videos.length ∧
    hvuLen st = st._path_to_videos.length ∧
    numVideos st = st._path_to_videos.length ∧
    ∀ i : Nat, i < st._path_to_videos.length →
      st._spatial_temporal_idx[i]? = some (i % st._num_clips) := by
  obtain ⟨lines', parsed, hfile, hmode, _, _, _, _, _, hmap, hp, hl, hsi, hpos⟩ :=
    hvuInit_ok_spec _ _ _ _ _ _ h
  have hlines : lines' = lines := (Option.some.inj hfile).symm
  subst hlines
  have hplen : parsed.length = lines'.length := mapME_length _ _ _ hmap
  have hpaths : st._path_to_videos.length = lines'.length * st._num_clips := by
    rw [hp, List.length_map, entriesOf_length, hplen]
  have hstlen : st._spatial_temporal_idx.length = parsed.length * st._num_clips := by
    rw [hsi, List.length_map, entriesOf_length]
  refine ⟨hpaths, ?_, ?_, ?_, rfl, rfl, ?_⟩
  · rw [hl, List.length_map, entriesOf_length, hplen, hpaths]
  · rw [hstlen, hplen, hpaths]
  · rw [hp, List.length_map]; exact hpos
  · intro i hi
    exact hvuInit_stIdx st parsed hsi hstlen i
      (by rw [hstlen, hplen, ← hpaths]; exact hi)

/-- C3: in `test` mode, construction stores exactly
`NUM_ENSEMBLE_VIEWS * NUM_SPATIAL_CROPS` clip entries per CSV video, and for
every valid sample index the `val`/`test` branch of `__getitem__` computes
`temporal_sample_index = _spatial_temporal_idx[i] // NUM_SPATIAL_CROPS`
(a value in `[0, NUM_ENSEMBLE_VIEWS)`) and, when `NUM_SPATIAL_CROPS > 1`,
`spatial_sample_index = _spatial_temporal_idx[i] % NUM_SPATIAL_CROPS`
(the stored clip index being `i % _num_clips`); each video's block of clip
entries covers the whole ensemble-views by spatial-crops grid. -/
theorem hvu_test_clip_grid (cfg : Cfg) (nr : Nat) (lines : List String)
    (st : HvuState) (cfg2 : Cfg)
    (h : hvuInit cfg "test" nr (some lines) = .ok (st, cfg2)) :
    st._num_clips = cfg.TEST.NUM_ENSEMBLE_VIEWS * cfg.TEST.NUM_SPATIAL_CROPS ∧
    hvuLen st = lines.length *
      (cfg.TEST.NUM_ENSEMBLE_VIEWS * cfg.TEST.NUM_SPATIAL_CROPS) ∧
    (∀ i : Nat, i < hvuLen st →
      st._spatial_temporal_idx[i]? = some (i % st._num_clips) ∧
      testValParams st i = .ok
        ⟨(((i % st._num_clips) / cfg.TEST.NUM_SPATIAL_CROPS : Nat) : Int),
         (if 1 < cfg.TEST.NUM_SPATIAL_CROPS
          then (((i % st._num_clips) % cfg.TEST.NUM_SPATIAL_CROPS : Nat) : Int)
          else 1),
         cfg.DATA.TEST_CROP_SIZE, cfg.DATA.TEST_CROP_SIZE,
         cfg.DATA.TEST_CROP_SIZE⟩ ∧
      (i % st._num_clips) / cfg.TEST.NUM_SPATIAL_CROPS
        < cfg.TEST.NUM_ENSEMBLE_VIEWS) ∧
    (∀ v : Nat, v < lines.length →
      ∀ t : Nat, t < cfg.TEST.NUM_ENSEMBLE_VIEWS →
      ∀ s : Nat, s < cfg.TEST.NUM_SPATIAL_CROPS →
      ∃ i : Nat, v * st._num_clips ≤ i ∧ i < (v + 1) * st._num_clips ∧
        i < hvuLen st ∧
        (i % st._num_clips) / cfg.TEST.NUM_SPATIAL_CROPS = t ∧
        (i % st._num_clips) % cfg.TEST.NUM_SPATIAL_CROPS = s) := by
  obtain ⟨lines', parsed, hfile, _, _, _, hstcfg, hcfg2, hnc, hmap, hp, hl, hsi, hpos⟩ :=
    hvuInit_ok_spec _ _ _ _ _ _ h
  have hlines : lines' = lines := (Option.some.inj hfile).symm
  subst hlines
  have hcfgid : cfg2 = cfg := by
    rw [hcfg2]; unfold initCfg; rw [if_neg (by decide)]
  have hstcfg2 : st.cfg = cfg := by rw [hstcfg, hcfgid]
  have hncv : st._num_clips
      = cfg.TEST.NUM_ENSEMBLE_VIEWS * cfg.TEST.NUM_SPATIAL_CROPS := by
    rw [hnc]; unfold initNumClips; rw [if_neg (by decide)]
  have hplen : parsed.length = lines'.length := mapME_length _ _ _ hmap
  have hstlen : st._spatial_temporal_idx.length = parsed.length * st._num_clips := by
    rw [hsi, List.length_map, entriesOf_length]
  have hlenst : hvuLen st = lines'.length * st._num_clips := by
    unfold hvuLen
    rw [hp, List.length_map, entriesOf_length, hplen]
  have hncpos : 0 < st._num_clips := by
    by_contra h0
    have h00 : st._num_clips = 0 := by omega
    rw [entriesOf_length, h00, Nat.mul_zero] at hpos
    omega
  have hCpos : 0 < cfg.TEST.NUM_SPATIAL_CROPS := by
    rcases Nat.eq_zero_or_pos cfg.TEST.NUM_SPATIAL_CROPS with h0 | hgt
    · rw [h0, Nat.mul_zero] at hncv; omega
    · exact hgt
  refine ⟨hncv, by rw [hlenst, hncv], fun i hi => ?_, fun v hv t ht s hs => ?_⟩
  · have hiv : st._spatial_temporal_idx[i]? = some (i % st._num_clips) :=
      hvuInit_stIdx st parsed hsi hstlen i
        (by rw [hstlen, hplen, ← hlenst]; exact hi)
    have heq := testValParams_eq st i (i % st._num_clips) hiv
      (by rw [hstcfg2]; omega)
    rw [hstcfg2] at heq
    refine ⟨hiv, heq, ?_⟩
    have hmod : i % st._num_clips < st._num_clips := Nat.mod_lt _ hncpos
    have hmod2 : i % st._num_clips
        < cfg.TEST.NUM_SPATIAL_CROPS * cfg.TEST.NUM_ENSEMBLE_VIEWS := by
      rw [Nat.mul_comm, ← hncv]; exact hmod
    exact Nat.div_lt_of_lt_mul hmod2
  · have hr : t * cfg.TEST.NUM_SPATIAL_CROPS + s < st._num_clips := by
      rw [hncv]
      calc t * cfg.TEST.NUM_SPATIAL_CROPS + s
          < (t + 1) * cfg.TEST.NUM_SPATIAL_CROPS := by rw [Nat.succ_mul]; omega
        _ ≤ cfg.TEST.NUM_ENSEMBLE_VIEWS * cfg.TEST.NUM_SPATIAL_CROPS :=
            Nat.mul_le_mul_right _ (by omega)
    have hmod : (v * st._num_clips + (t * cfg.TEST.NUM_SPATIAL_CROPS + s))
        % st._num_clips = t * cfg.TEST.NUM_SPATIAL_CROPS + s := by
      rw [Nat.add_comm, Nat.add_mul_mod_self_right, Nat.mod_eq_of_lt hr]
    refine ⟨v * st._num_clips + (t * cfg.TEST.NUM_SPATIAL_CROPS + s),
      Nat.le_add_right _ _, ?_, ?_, ?_, ?_⟩
    · rw [Nat.succ_mul]
      exact Nat.add_lt_add_left hr _
    · rw [hlenst]
      calc v * st._num_clips + (t * cfg.TEST.NUM_SPATIAL_CROPS + s)
          < (v + 1) * st._num_clips := by
            rw [Nat.succ_mul]; exact Nat.add_lt_add_left hr _
        _ ≤ lines'.length * st._num_clips := Nat.mul_le_mul_right _ (by omega)
    · rw [hmod, Nat.mul_comm t cfg.TEST.NUM_SPATIAL_CROPS,
        Nat.mul_add_div hCpos, Nat.div_eq_of_lt hs]
      omega
    · rw [hmod, Nat.mul_comm t cfg.TEST.NUM_SPATIAL_CROPS, Nat.mul_add_mod,
        Nat.mod_eq_of_lt hs]

theorem lineEntry_eq (cfg : Cfg) (line path : String) (L : List Int) (v : List ℚ)
    (hparse : parseLine cfg.DATA.PATH_LABEL_SEPARATOR line = .ok (path, L))
    (hoh : oneHot cfg.MODEL.NUM_CLASSES L = .ok v) :
    lineEntry cfg line = .ok (pyJoin (DataCfg.PATH_PREFIX cfg.DATA) path, v) := by
  unfold lineEntry
  rw [hparse]
  show (match oneHot cfg.MODEL.NUM_CLASSES L with
    | .error e => .error e
    | .ok oh => .ok (pyJoin (DataCfg.PATH_PREFIX cfg.DATA) path, oh))
    = Except.ok (pyJoin (DataCfg.PATH_PREFIX cfg.DATA) path, v)
  rw [hoh]

/-- C1: for a CSV line parsed with label list `L` whose labels all lie in
`[0, cfg.MODEL.NUM_CLASSES)`, every clip entry of that video stores the float
vector of length `cfg.MODEL.NUM_CLASSES` that is `1` exactly at the positions
in `L` and `0` elsewhere, and when `__getitem__` loads that clip successfully
on its first attempt, every label component of the returned tuple is this
same vector. -/
theorem hvu_one_hot_label_vector (cfg : Cfg) (mode : String) (nr : Nat)
    (lines : List String) (st : HvuState) (cfg2 : Cfg)
    (j c : Nat) (line path : String) (L : List Int)
    (hinit : hvuInit cfg mode nr (some lines) = .ok (st, cfg2))
    (hline : lines[j]? = some line)
    (hparse : parseLine cfg2.DATA.PATH_LABEL_SEPARATOR line = .ok (path, L))
    (hrange : ∀ l ∈ L, 0 ≤ l ∧ l < (cfg2.MODEL.NUM_CLASSES : Int))
    (hc : c < st._num_clips) :
    ∃ v : List ℚ,
      st._labels[j * st._num_clips + c]? = some v ∧
      v.length = cfg2.MODEL.NUM_CLASSES ∧
      (∀ i : Nat, i < cfg2.MODEL.NUM_CLASSES →
        v[i]? = some (if (i : Int) ∈ L then 1 else 0)) ∧
      (∀ (F G : Type) (env : GetEnv F G) (f : F),
        env.container_ok 0 ((j * st._num_clips + c : Nat) : Int) = true →
        env.decode_result 0 ((j * st._num_clips + c : Nat) : Int) = some f →
        0 < st._num_retries →
        ∃ ret, (getitem env st ((j * st._num_clips + c : Nat) : Int) none).1 = .ok ret ∧
          labelsComponents ret ≠ [] ∧
          ∀ lv ∈ labelsComponents ret, lv = v) := by
  obtain ⟨lines', parsed, hfile, hmode, hsm, hsr, hstcfg, hcfg2, hnc, hmap, hp, hl, hsi, hpos⟩ :=
    hvuInit_ok_spec _ _ _ _ _ _ hinit
  have hlines : lines' = lines := (Option.some.inj hfile).symm
  subst hlines
  obtain ⟨v, hv, hvlen, hvval⟩ := oneHot_spec cfg2.MODEL.NUM_CLASSES L hrange
  obtain ⟨pe, hpe_ok, hpe_get⟩ := mapME_get (lineEntry cfg2) lines' parsed j line hmap hline
  have hpe2 : pe = (pyJoin (DataCfg.PATH_PREFIX cfg2.DATA) path, v) := by
    have := lineEntry_eq cfg2 line path L v hparse hv
    rw [hpe_ok] at this
    exact Except.ok.inj this
  have hj : j < parsed.length := by
    by_contra hge
    rw [List.getElem?_eq_none (by omega)] at hpe_get
    exact Option.noConfusion hpe_get
  have hent := entriesOf_get st._num_clips parsed j c pe hpe_get hc
  have hlab : st._labels[j * st._num_clips + c]? = some v := by
    rw [hl, List.getElem?_map, hent, hpe2]
    rfl
  have hncpos : 0 < st._num_clips := by
    by_contra h0
    have h00 : st._num_clips = 0 := by omega
    rw [entriesOf_length, h00, Nat.mul_zero] at hpos
    omega
  have hidxlt : j * st._num_clips + c < parsed.length * st._num_clips := by
    calc j * st._num_clips + c < (j + 1) * st._num_clips := by
          rw [Nat.succ_mul]; exact Nat.add_lt_add_left hc _
      _ ≤ parsed.length * st._num_clips := Nat.mul_le_mul_right _ (by omega)
  have hplen2 : st._path_to_videos.length = parsed.length * st._num_clips := by
    rw [hp, List.length_map, entriesOf_length]
  have hstlen : st._spatial_temporal_idx.length = parsed.length * st._num_clips := by
    rw [hsi, List.length_map, entriesOf_length]
  refine ⟨v, hlab, hvlen, hvval, ?_⟩
  intro F G env f hcont hdec hnr
  have hparams : ∃ p,
      computeParams st ((j * st._num_clips + c : Nat) : Int) none = .ok p := by
    rcases hmode with hm | hm | hm
    · rw [computeParams_train st _ none (by rw [hsm, hm]), trainParams_none st.cfg]
      exact ⟨_, rfl⟩
    · have hsm2 : st.mode = "val" := by rw [hsm, hm]
      have hCval : st.cfg.TEST.NUM_SPATIAL_CROPS = 1 := by
        rw [hstcfg, hcfg2, hm]
        unfold initCfg
        rw [if_pos (Or.inr rfl)]
      have hiv : st._spatial_temporal_idx[(j * st._num_clips + c)]?
          = some ((j * st._num_clips + c) % st._num_clips) :=
        hvuInit_stIdx st parsed hsi hstlen _ (by omega)
      unfold computeParams
      rw [hsm2]
      rw [if_neg (by decide), if_pos (Or.inl rfl)]
      rw [testValParams_eq st _ _ hiv (by omega)]
      exact ⟨_, rfl⟩
    · have hsm2 : st.mode = "test" := by rw [hsm, hm]
      have hCtest : st.cfg.TEST.NUM_SPATIAL_CROPS ≠ 0 := by
        intro h0
        have : st._num_clips = 0 := by
          rw [hnc, hm]
          unfold initNumClips
          rw [if_neg (by decide)]
          have : cfg.TEST.NUM_SPATIAL_CROPS = 0 := by
            rw [hstcfg, hcfg2, hm] at h0
            unfold initCfg at h0
            rw [if_neg (by decide)] at h0
            exact h0
          rw [this, Nat.mul_zero]
        omega
      have hiv : st._spatial_temporal_idx[(j * st._num_clips + c)]?
          = some ((j * st._num_clips + c) % st._num_clips) :=
        hvuInit_stIdx st parsed hsi hstlen _ (by omega)
      unfold computeParams
      rw [hsm2]
      rw [if_neg (by decide), if_pos (Or.inr rfl)]
      rw [testValParams_eq st _ _ hiv hCtest]
      exact ⟨_, rfl⟩
  obtain ⟨p, hparams⟩ := hparams
  have hget : getitem env st ((j * st._num_clips + c : Nat) : Int) none
      = getitemLoop env st p st._num_retries 0 ((j * st._num_clips + c : Nat) : Int) := by
    unfold getitem
    rw [hparams]
  obtain ⟨fuel, hfuel⟩ : ∃ fuel, st._num_retries = fuel + 1 :=
    ⟨st._num_retries - 1, by omega⟩
  rw [hfuel] at hget
  rw [getitemLoop_first_success env st p fuel 0 _ f hcont hdec
    (Int.natCast_nonneg _) (by rw [hplen2]; exact_mod_cast hidxlt)] at hget
  have hlv : pyGet st._labels ((j * st._num_clips + c : Nat) : Int) = some v := by
    rw [pyGet_natCast]
    exact hlab
  obtain ⟨ret, hrok, _, hlcne, hall⟩ := returnSuccess_ok env st p _ f v hlv
  exact ⟨ret, by rw [hget]; exact hrok, hlcne, hall⟩

/-- C6: in the `train` branch, a supplied short-cycle index of `0` or `1`
replaces `crop_size` by `round(SHORT_CYCLE_FACTORS[idx] * DEFAULT_S)`;
whenever `DEFAULT_S > 0` the minimum jitter scale is rescaled to
`round(min_scale * crop_size / DEFAULT_S)` (with the updated `crop_size`);
with no short-cycle index and `DEFAULT_S <= 0` the configured
`TRAIN_JITTER_SCALES` and `TRAIN_CROP_SIZE` are used unchanged; and
`__getitem__` computes its parameters through this branch exactly when the
dataset is in `train` mode. -/
theorem hvu_short_cycle_params (cfg : Cfg) :
    (∀ i : Nat, (i = 0 ∨ i = 1) →
      ∀ q : ℚ, cfg.MULTIGRID.SHORT_CYCLE_FACTORS[i]? = some q →
      trainParams cfg (some i) = .ok
        ⟨-1, -1,
         (if 0 < cfg.MULTIGRID.DEFAULT_S then
            pyRound ((cfg.DATA.TRAIN_JITTER_SCALES.1 : ℚ)
              * ((pyRound (q * (cfg.MULTIGRID.DEFAULT_S : ℚ)) : ℤ) : ℚ)
              / (cfg.MULTIGRID.DEFAULT_S : ℚ))
          else cfg.DATA.TRAIN_JITTER_SCALES.1),
         cfg.DATA.TRAIN_JITTER_SCALES.2,
         pyRound (q * (cfg.MULTIGRID.DEFAULT_S : ℚ))⟩) ∧
    (trainParams cfg none = .ok
      ⟨-1, -1,
       (if 0 < cfg.MULTIGRID.DEFAULT_S then
          pyRound ((cfg.DATA.TRAIN_JITTER_SCALES.1 : ℚ)
            * (cfg.DATA.TRAIN_CROP_SIZE : ℚ) / (cfg.MULTIGRID.DEFAULT_S : ℚ))
        else cfg.DATA.TRAIN_JITTER_SCALES.1),
       cfg.DATA.TRAIN_JITTER_SCALES.2, cfg.DATA.TRAIN_CROP_SIZE⟩) ∧
    (cfg.MULTIGRID.DEFAULT_S ≤ 0 → trainParams cfg none = .ok
      ⟨-1, -1, cfg.DATA.TRAIN_JITTER_SCALES.1, cfg.DATA.TRAIN_JITTER_SCALES.2,
       cfg.DATA.TRAIN_CROP_SIZE⟩) ∧
    (∀ (st : HvuState) (index : Int) (sc : Option Nat), st.mode = "train" →
      computeParams st index sc = trainParams st.cfg sc) := by
  refine ⟨?_, trainParams_none cfg, ?_, fun st index sc hm =>
    computeParams_train st index sc hm⟩
  · intro i hi q hq
    simp only [trainParams, Option.getD_some]
    rw [if_pos (by rcases hi with h | h <;> subst h <;> simp), hq]
  · intro hds
    rw [trainParams_none cfg, if_neg (by omega)]

/-- C5 (amended): whenever the retry loop of `__getitem__` returns
successfully, the returned tuple is exactly `(frames, labels, index, {})` —
the processed frames, the stored label vector of the sampled index, the
sampled index, and a trailing empty dict — or, in the augmented multi-sample
branch, the four lists `(frame_list, label_list, index_list, {})` where the
label list repeats that same label vector and the index list repeats that
same index, `NUM_SAMPLE` times each. -/
theorem hvu_getitem_tuple_amended (F G : Type) (env : GetEnv F G)
    (st : HvuState) (index : Int) (sc : Option Nat) (ret : List (PyComp G))
    (h : (getitem env st index sc).1 = .ok ret) :
    ∃ (i : Int) (lv : List ℚ), pyGet st._labels i = some lv ∧
      ((∃ g, ret = [.frames g, .labels lv, .idx i, .emptyDict]) ∨
       (1 < st.cfg.AUG.NUM_SAMPLE ∧ ∃ gs,
         ret = [.frameList gs,
                .labelList (List.replicate st.cfg.AUG.NUM_SAMPLE lv),
                .idxList (List.replicate st.cfg.AUG.NUM_SAMPLE i),
                .emptyDict])) := by
  unfold getitem at h
  cases hp : computeParams st index sc with
  | error e => rw [hp] at h; exact Except.noConfusion h
  | ok p =>
    rw [hp] at h
    exact getitemLoop_ok_shape env st p _ _ _ _ h

/-- C2: the saved state dict built by the extraction loop is a pure
filter-and-rename of the model's state dict: provided the renamed keys are
pairwise distinct (as they are for the CLIP visual encoders, whose matching
keys all start with `visual.`), the loop produces exactly the entries whose
key contains `'visual.'`, renamed to `k[7:]`, excluding `proj`,
`ln_post.weight` and `ln_post.bias`, with every tensor value unmodified. -/
theorem extract_is_filter_rename (V : Type) (sd : List (String × V))
    (hinj : ((Extract.extractSpec sd).map Prod.fst).Nodup) :
    Extract.extractLoop sd = Extract.extractSpec sd := by
  unfold Extract.extractLoop
  rw [Extract.extractLoop_aux sd [] (by simpa using hinj)]
  simp

theorem computeParams_ok (cfg : Cfg) (mode : String) (nr : Nat)
    (file : Option (List String)) (st : HvuState) (cfg2 : Cfg)
    (hinit : hvuInit cfg mode nr file = .ok (st, cfg2)) (i : Nat)
    (hi : i < st._path_to_videos.length) :
    ∃ p, computeParams st (i : Int) none = .ok p := by
  obtain ⟨lines', parsed, hfile, hmode, hsm, hsr, hstcfg, hcfg2, hnc, hmap, hp, hl, hsi, hpos⟩ :=
    hvuInit_ok_spec _ _ _ _ _ _ hinit
  have hplen2 : st._path_to_videos.length = parsed.length * st._num_clips := by
    rw [hp, List.length_map, entriesOf_length]
  have hstlen : st._spatial_temporal_idx.length = parsed.length * st._num_clips := by
    rw [hsi, List.length_map, entriesOf_length]
  rcases hmode with hm | hm | hm
  · rw [computeParams_train st _ none (by rw [hsm, hm]), trainParams_none st.cfg]
    exact ⟨_, rfl⟩
  · have hsm2 : st.mode = "val" := by rw [hsm, hm]
    have hCval : st.cfg.TEST.NUM_SPATIAL_CROPS = 1 := by
      rw [hstcfg, hcfg2, hm]
      unfold initCfg
      rw [if_pos (Or.inr rfl)]
    have hiv : st._spatial_temporal_idx[i]? = some (i % st._num_clips) :=
      hvuInit_stIdx st parsed hsi hstlen _ (by omega)
    unfold computeParams
    rw [hsm2]
    rw [if_neg (by decide), if_pos (Or.inl rfl)]
    rw [testValParams_eq st _ _ hiv (by omega)]
    exact ⟨_, rfl⟩
  · have hsm2 : st.mode = "test" := by rw [hsm, hm]
    have hCtest : st.cfg.TEST.NUM_SPATIAL_CROPS ≠ 0 := by
      intro h0
      have hnc0 : st._num_clips = 0 := by
        rw [hnc, hm]
        unfold initNumClips
        rw [if_neg (by decide)]
        have : cfg.TEST.NUM_SPATIAL_CROPS = 0 := by
          rw [hstcfg, hcfg2, hm] at h0
          unfold initCfg at h0
          rw [if_neg (by decide)] at h0
          exact h0
        rw [this, Nat.mul_zero]
      rw [hplen2, hnc0, Nat.mul_zero] at hi
      omega
    have hiv : st._spatial_temporal_idx[i]? = some (i % st._num_clips) :=
      hvuInit_stIdx st parsed hsi hstlen _ (by omega)
    unfold computeParams
    rw [hsm2]
    rw [if_neg (by decide), if_pos (Or.inr rfl)]
    rw [testValParams_eq st _ _ hiv hCtest]
    exact ⟨_, rfl⟩


/-- C4 (amended): `__getitem__` performs at most `num_retries` attempts.
When every attempt fails it raises `RuntimeError`: in `train`/`val` mode
unconditionally (with in-range random substitute indices); in `test` mode —
where each failed container load past half the retries decrements the
index — when every container load fails and the number of decrements stays
within the dataset length, and likewise when every decode fails with the
container loads succeeding; but when the decrements exceed the dataset
length, the fallback index leaves Python's valid negative-index range and
`IndexError` is raised instead.  Whenever the attempt the loop reaches at
any point succeeds (container load and decode succeed at the in-range
current index), `__getitem__` returns normally without raising.  In
`train`/`val` mode, once more than half of the retries have failed, the
next attempt substitutes the randomly drawn index. -/
theorem hvu_getitem_retry (cfg : Cfg) (mode : String) (nr : Nat)
    (file : Option (List String)) (st : HvuState) (cfg2 : Cfg)
    (hinit : hvuInit cfg mode nr file = .ok (st, cfg2)) :
    (∀ (F G : Type) (env : GetEnv F G) (p : SampleParams) (fuel iTry : Nat)
       (index : Int), (getitemLoop env st p fuel iTry index).2 ≤ fuel) ∧
    (∀ (F G : Type) (env : GetEnv F G) (index : Int) (sc : Option Nat),
      (getitem env st index sc).2 ≤ st._num_retries) ∧
    (∀ (F G : Type) (env : GetEnv F G),
      (st.mode = "train" ∨ st.mode = "val") →
      (∀ (t : Nat) (idx : Int),
        env.container_ok t idx = false ∨ env.decode_result t idx = none) →
      (∀ t : Nat, env.randint t < st._path_to_videos.length) →
      ∀ i : Nat, i < st._path_to_videos.length →
        getitem env st (i : Int) none = (.error .runtimeError, st._num_retries)) ∧
    (∀ (F G : Type) (env : GetEnv F G),
      st.mode = "test" →
      (∀ (t : Nat) (idx : Int), env.container_ok t idx = false) →
      decs st._num_retries 0 st._num_retries ≤ st._path_to_videos.length →
      getitem env st 0 none = (.error .runtimeError, st._num_retries)) ∧
    (∀ (F G : Type) (env : GetEnv F G),
      st.mode = "test" →
      (∀ (t : Nat) (idx : Int), env.container_ok t idx = false) →
      st._path_to_videos.length < decs st._num_retries 0 st._num_retries →
      (getitem env st 0 none).1 = .error .indexError) ∧
    (∀ (F G : Type) (env : GetEnv F G),
      st.mode = "test" →
      (∀ (t : Nat) (idx : Int), env.container_ok t idx = true) →
      (∀ (t : Nat) (idx : Int), env.decode_result t idx = none) →
      ∀ i : Nat, i < st._path_to_videos.length →
        getitem env st (i : Int) none = (.error .runtimeError, st._num_retries)) ∧
    (∀ (F G : Type) (env : GetEnv F G) (p : SampleParams) (f : F)
       (fuel iTry : Nat) (index : Int),
      env.container_ok iTry index = true →
      env.decode_result iTry index = some f →
      0 ≤ index → index < st._path_to_videos.length →
      ∃ ret, getitemLoop env st p (fuel + 1) iTry index = (.ok ret, 1)) ∧
    (∀ (F G : Type) (env : GetEnv F G) (f : F),
      0 < st._num_retries →
      ∀ i : Nat, i < st._path_to_videos.length →
      env.container_ok 0 (i : Int) = true →
      env.decode_result 0 (i : Int) = some f →
      ∃ ret, getitem env st (i : Int) none = (.ok ret, 1)) ∧
    (∀ (F G : Type) (env : GetEnv F G) (p : SampleParams) (fuel iTry : Nat)
       (idx : Int),
      (st.mode = "train" ∨ st.mode = "val") →
      st._num_retries / 2 < iTry →
      env.container_ok iTry idx = false →
      (pyGet st._path_to_videos idx).isSome →
      getitemLoop env st p (fuel + 1) iTry idx
        = ((getitemLoop env st p fuel (iTry + 1) (env.randint iTry)).1,
           (getitemLoop env st p fuel (iTry + 1) (env.randint iTry)).2 + 1)) := by
  have hlablen : st._labels.length = st._path_to_videos.length := by
    obtain ⟨lines', parsed, _, _, _, _, _, _, _, _, hpv, hl, _, _⟩ :=
      hvuInit_ok_spec _ _ _ _ _ _ hinit
    rw [hl, hpv, List.length_map, List.length_map]
  have hlenpos : 0 < st._path_to_videos.length := by
    obtain ⟨lines', parsed, _, _, _, _, _, _, _, _, hpv, _, _, hpos⟩ :=
      hvuInit_ok_spec _ _ _ _ _ _ hinit
    rw [hpv, List.length_map]
    exact hpos
  have hsucc : ∀ (F G : Type) (env : GetEnv F G) (p : SampleParams) (f : F)
      (fuel iTry : Nat) (index : Int),
      env.container_ok iTry index = true →
      env.decode_result iTry index = some f →
      0 ≤ index → index < st._path_to_videos.length →
      ∃ ret, getitemLoop env st p (fuel + 1) iTry index = (.ok ret, 1) := by
    intro F G env p f fuel iTry index hcont hdec h0 h1
    obtain ⟨lv, hlv⟩ := pyGet_isSome st._labels index (by omega) (by omega)
    obtain ⟨ret, hrok, _, _, _⟩ := returnSuccess_ok env st p index f lv hlv
    refine ⟨ret, ?_⟩
    rw [getitemLoop_first_success env st p fuel iTry index f hcont hdec h0 h1, hrok]
  refine ⟨fun F G env p fuel iTry index => getitemLoop_count env st p fuel iTry index,
    ?_, ?_, ?_, ?_, ?_, hsucc, ?_, ?_⟩
  · intro F G env index sc
    unfold getitem
    cases hp : computeParams st index sc with
    | error e => simp
    | ok p => exact getitemLoop_count env st p st._num_retries 0 index
  · intro F G env hm hfail hrand i hi
    obtain ⟨p, hp⟩ := computeParams_ok cfg mode nr file st cfg2 hinit i hi
    have hget : getitem env st (i : Int) none
        = getitemLoop env st p st._num_retries 0 (i : Int) := by
      unfold getitem
      rw [hp]
    rw [hget]
    exact getitemLoop_allfail_tv env st p hm hfail
      (fun t => hrand t) st._num_retries 0 (i : Int)
      (Int.natCast_nonneg i) (by exact_mod_cast hi)
  · intro F G env hm hfail hdecs
    obtain ⟨p, hp⟩ := computeParams_ok cfg mode nr file st cfg2 hinit 0 hlenpos
    have h00 : ((0 : Nat) : Int) = (0 : Int) := rfl
    rw [h00] at hp
    have hget : getitem env st 0 none
        = getitemLoop env st p st._num_retries 0 0 := by
      unfold getitem
      rw [hp]
    rw [hget]
    exact getitemLoop_allfail_test env st p hm hfail st._num_retries 0 0
      (by omega) (by exact_mod_cast hlenpos) (by omega)
  · intro F G env hm hfail hdecs
    obtain ⟨p, hp⟩ := computeParams_ok cfg mode nr file st cfg2 hinit 0 hlenpos
    have h00 : ((0 : Nat) : Int) = (0 : Int) := rfl
    rw [h00] at hp
    have hget : getitem env st 0 none
        = getitemLoop env st p st._num_retries 0 0 := by
      unfold getitem
      rw [hp]
    rw [hget]
    exact getitemLoop_allfail_test_overflow env st p hm hfail st._num_retries 0 0
      (by omega) (by exact_mod_cast hlenpos) (by omega)
  · intro F G env hm hcont hdec i hi
    obtain ⟨p, hp⟩ := computeParams_ok cfg mode nr file st cfg2 hinit i hi
    have hget : getitem env st (i : Int) none
        = getitemLoop env st p st._num_retries 0 (i : Int) := by
      unfold getitem
      rw [hp]
    rw [hget]
    exact getitemLoop_decodefail_test env st p hm hcont hdec st._num_retries 0
      (i : Int) (Int.natCast_nonneg i) (by exact_mod_cast hi)
  · intro F G env f hnr i hi hcont hdec
    obtain ⟨p, hp⟩ := computeParams_ok cfg mode nr file st cfg2 hinit i hi
    have hget : getitem env st (i : Int) none
        = getitemLoop env st p st._num_retries 0 (i : Int) := by
      unfold getitem
      rw [hp]
    obtain ⟨fuel, hfuel⟩ : ∃ fuel, st._num_retries = fuel + 1 :=
      ⟨st._num_retries - 1, by omega⟩
    rw [hfuel] at hget
    obtain ⟨ret, hr⟩ := hsucc F G env p f fuel 0 (i : Int) hcont hdec
      (Int.natCast_nonneg i) (by exact_mod_cast hi)
    refine ⟨ret, ?_⟩
    rw [hget, hr]
  · intro F G env p fuel iTry idx hm hh hc hsome
    have hmt : st.mode ≠ "test" := by
      rcases hm with h | h <;> rw [h] <;> decide
    obtain ⟨a, ha⟩ := Option.isSome_iff_exists.mp hsome
    simp only [getitemLoop]
    rw [ha]
    simp only [hc, Bool.false_eq_true, if_false]
    rw [if_pos ⟨hmt, hh⟩]

/-- C10: in `test` mode with every container load failing, starting from
sample index `0` the fallback decrements the index (`index - 1`, reaching
`-1` after the first fallback attempt), Python's negative indexing keeps
every access within range — `-1` addresses the last sample — and as long as
the total number of decrements does not exceed the dataset length the loop
ends in `RuntimeError` rather than an out-of-range `IndexError`. -/
theorem hvu_test_fallback_negative_index (cfg : Cfg) (nr : Nat)
    (file : Option (List String)) (st : HvuState) (cfg2 : Cfg)
    (hinit : hvuInit cfg "test" nr file = .ok (st, cfg2)) :
    (∀ (F G : Type) (env : GetEnv F G),
      (∀ (t : Nat) (idx : Int), env.container_ok t idx = false) →
      decs st._num_retries 0 st._num_retries ≤ st._path_to_videos.length →
      getitem env st 0 none = (.error .runtimeError, st._num_retries)) ∧
    (∀ (F G : Type) (env : GetEnv F G) (p : SampleParams) (fuel : Nat),
      env.container_ok (st._num_retries / 2 + 1) 0 = false →
      getitemLoop env st p (fuel + 1) (st._num_retries / 2 + 1) 0
        = ((getitemLoop env st p fuel (st._num_retries / 2 + 2) (-1)).1,
           (getitemLoop env st p fuel (st._num_retries / 2 + 2) (-1)).2 + 1)) ∧
    pyGet st._path_to_videos (-1) = st._path_to_videos.getLast? := by
  obtain ⟨lines', parsed, _, _, hsm, _, _, _, _, _, hpv, _, _, hpos⟩ :=
    hvuInit_ok_spec _ _ _ _ _ _ hinit
  have hlen : 0 < st._path_to_videos.length := by
    rw [hpv, List.length_map]
    exact hpos
  refine ⟨?_, ?_, pyGet_neg_one_getLast st._path_to_videos hlen⟩
  · intro F G env hfail hdecs
    obtain ⟨p, hp⟩ := computeParams_ok cfg "test" nr file st cfg2 hinit 0 hlen
    have h00 : ((0 : Nat) : Int) = (0 : Int) := rfl
    rw [h00] at hp
    have hget : getitem env st 0 none
        = getitemLoop env st p st._num_retries 0 0 := by
      unfold getitem
      rw [hp]
    rw [hget]
    exact getitemLoop_allfail_test env st p hsm hfail st._num_retries 0 0
      (by omega) (by exact_mod_cast hlen) (by omega)
  · intro F G env p fuel hc
    exact getitemLoop_test_step env st p hsm hc hlen fuel

/-- C5 (counterexample): on a concrete successful load, `__getitem__`
returns a four-component tuple `(frames, labels, index, {})` — it does not
consist of exactly the three components `(frames, labels, index)`. -/
theorem hvu_getitem_tuple_counterexample :
    hvuInit wCfg "test" 10 (some wLines) = .ok (wSt, wCfg) ∧
    (getitem wEnvOk wSt 0 none).1
      = .ok [.frames 170, .labels [1, 0, 1, 0], .idx 0, .emptyDict] ∧
    ¬ ∃ (g : Nat) (lv : List ℚ) (i : Int),
        ([PyComp.frames g, PyComp.labels lv, PyComp.idx i] : List (PyComp Nat))
          = [.frames 170, .labels [1, 0, 1, 0], .idx 0, .emptyDict] := by
  refine ⟨rfl, rfl, ?_⟩
  rintro ⟨g, lv, i, h⟩
  simp at h

/-! ## Witnesses -/

theorem hvu_one_hot_label_vector_witness :
    ∃ v : List ℚ,
      wSt._labels[0 * wSt._num_clips + 0]? = some v ∧
      v.length = wCfg.MODEL.NUM_CLASSES ∧
      (∀ i : Nat, i < wCfg.MODEL.NUM_CLASSES →
        v[i]? = some (if (i : Int) ∈ [(0 : Int), 2] then 1 else 0)) ∧
      (∀ (F G : Type) (env : GetEnv F G) (f : F),
        env.container_ok 0 ((0 * wSt._num_clips + 0 : Nat) : Int) = true →
        env.decode_result 0 ((0 * wSt._num_clips + 0 : Nat) : Int) = some f →
        0 < wSt._num_retries →
        ∃ ret,
          (getitem env wSt ((0 * wSt._num_clips + 0 : Nat) : Int) none).1 = .ok ret ∧
          labelsComponents ret ≠ [] ∧
          ∀ lv ∈ labelsComponents ret, lv = v) :=
  hvu_one_hot_label_vector wCfg "test" 10 wLines wSt wCfg 0 0 "v1.mp4 0|2"
    "v1.mp4" [0, 2] rfl rfl rfl (by decide) (by decide)

theorem extract_is_filter_rename_witness :
    Extract.extractLoop wSd = Extract.extractSpec wSd ∧
    Extract.extractSpec wSd = [("conv1.weight", 1), ("ln_pre.weight", 7)] :=
  ⟨extract_is_filter_rename Nat wSd (by decide), rfl⟩

theorem hvu_test_clip_grid_witness :
    wSt._num_clips = wCfg.TEST.NUM_ENSEMBLE_VIEWS * wCfg.TEST.NUM_SPATIAL_CROPS ∧
    hvuLen wSt = wLines.length *
      (wCfg.TEST.NUM_ENSEMBLE_VIEWS * wCfg.TEST.NUM_SPATIAL_CROPS) ∧
    (∀ i : Nat, i < hvuLen wSt →
      wSt._spatial_temporal_idx[i]? = some (i % wSt._num_clips) ∧
      testValParams wSt i = .ok
        ⟨(((i % wSt._num_clips) / wCfg.TEST.NUM_SPATIAL_CROPS : Nat) : Int),
         (if 1 < wCfg.TEST.NUM_SPATIAL_CROPS
          then (((i % wSt._num_clips) % wCfg.TEST.NUM_SPATIAL_CROPS : Nat) : Int)
          else 1),
         wCfg.DATA.TEST_CROP_SIZE, wCfg.DATA.TEST_CROP_SIZE,
         wCfg.DATA.TEST_CROP_SIZE⟩ ∧
      (i % wSt._num_clips) / wCfg.TEST.NUM_SPATIAL_CROPS
        < wCfg.TEST.NUM_ENSEMBLE_VIEWS) ∧
    (∀ v : Nat, v < wLines.length →
      ∀ t : Nat, t < wCfg.TEST.NUM_ENSEMBLE_VIEWS →
      ∀ s : Nat, s < wCfg.TEST.NUM_SPATIAL_CROPS →
      ∃ i : Nat, v * wSt._num_clips ≤ i ∧ i < (v + 1) * wSt._num_clips ∧
        i < hvuLen wSt ∧
        (i % wSt._num_clips) / wCfg.TEST.NUM_SPATIAL_CROPS = t ∧
        (i % wSt._num_clips) % wCfg.TEST.NUM_SPATIAL_CROPS = s) :=
  hvu_test_clip_grid wCfg 10 wLines wSt wCfg rfl

theorem hvu_getitem_retry_witness :
    (getitemLoop wEnvFail wStTrain wParams 10 0 0).2 ≤ 10 ∧
    (getitem wEnvFail wStTrain 0 none).2 ≤ wStTrain._num_retries ∧
    getitem wEnvFail wStTrain ((0 : Nat) : Int) none
      = (.error .runtimeError, wStTrain._num_retries) ∧
    getitem wEnvFail wSt 0 none = (.error .runtimeError, wSt._num_retries) ∧
    (getitem wEnvFail wSt1 0 none).1 = .error .indexError ∧
    getitem wEnvDecFail wSt ((0 : Nat) : Int) none
      = (.error .runtimeError, wSt._num_retries) ∧
    (∃ ret, getitemLoop wEnvOk wStTrain wParams (5 + 1) 3 1 = (.ok ret, 1)) ∧
    (∃ ret, getitem wEnvOk wStTrain ((0 : Nat) : Int) none = (.ok ret, 1)) ∧
    getitemLoop wEnvFail wStTrain wParams (3 + 1) 6 0
      = ((getitemLoop wEnvFail wStTrain wParams 3 7 (wEnvFail.randint 6)).1,
         (getitemLoop wEnvFail wStTrain wParams 3 7 (wEnvFail.randint 6)).2 + 1) := by
  obtain ⟨h1, h2, h3, _, _, _, h7, h8, h9⟩ :=
    hvu_getitem_retry wCfg "train" 10 (some wLines) wStTrain wCfgT rfl
  obtain ⟨_, _, _, g4, _, g6, _, _, _⟩ :=
    hvu_getitem_retry wCfg "test" 10 (some wLines) wSt wCfg rfl
  obtain ⟨_, _, _, _, k5, _, _, _, _⟩ :=
    hvu_getitem_retry wCfgT "test" 10 (some wLines1) wSt1 wCfgT rfl
  exact ⟨h1 Nat Nat wEnvFail wParams 10 0 0,
    h2 Nat Nat wEnvFail 0 none,
    h3 Nat Nat wEnvFail (Or.inl rfl) (fun t idx => Or.inl rfl)
      (fun t => Nat.succ_pos 1) 0 (by decide),
    g4 Nat Nat wEnvFail rfl (fun t idx => rfl) (by decide),
    k5 Nat Nat wEnvFail rfl (fun t idx => rfl) (by decide),
    g6 Nat Nat wEnvDecFail rfl (fun t idx => rfl) (fun t idx => rfl) 0 (by decide),
    h7 Nat Nat wEnvOk wParams 7 5 3 1 rfl rfl (by decide) (by decide),
    h8 Nat Nat wEnvOk 7 (by decide) 0 (by decide) rfl rfl,
    h9 Nat Nat wEnvFail wParams 3 6 0 (Or.inl rfl) (by decide) rfl (by decide)⟩

/-- C4 (counterexample): on a test-mode dataset of length 1 with
`num_retries = 10` and every attempt failing, `__getitem__` does not raise
`RuntimeError`: the fallback decrements index `0` to `-1` and then `-2`,
which leaves Python's valid range for a length-1 list, so the access
`self._path_to_videos[index]` raises `IndexError` on the ninth attempt. -/
theorem hvu_getitem_retry_counterexample :
    hvuInit wCfgT "test" 10 (some wLines1) = .ok (wSt1, wCfgT) ∧
    (∀ (t : Nat) (idx : Int), wEnvFail.container_ok t idx = false ∧
      wEnvFail.decode_result t idx = none) ∧
    getitem wEnvFail wSt1 0 none = (.error .indexError, 9) :=
  ⟨rfl, fun _ _ => ⟨rfl, rfl⟩, rfl⟩

theorem hvu_getitem_tuple_amended_witness :
    ∃ (i : Int) (lv : List ℚ), pyGet wSt._labels i = some lv ∧
      ((∃ g, ([PyComp.frames 170, PyComp.labels [1, 0, 1, 0], PyComp.idx 0,
               PyComp.emptyDict] : List (PyComp Nat))
          = [.frames g, .labels lv, .idx i, .emptyDict]) ∨
       (1 < wSt.cfg.AUG.NUM_SAMPLE ∧ ∃ gs,
         ([PyComp.frames 170, PyComp.labels [1, 0, 1, 0], PyComp.idx 0,
           PyComp.emptyDict] : List (PyComp Nat))
           = [.frameList gs,
              .labelList (List.replicate wSt.cfg.AUG.NUM_SAMPLE lv),
              .idxList (List.replicate wSt.cfg.AUG.NUM_SAMPLE i),
              .emptyDict])) :=
  hvu_getitem_tuple_amended Nat Nat wEnvOk wSt 0 none
    [.frames 170, .labels [1, 0, 1, 0], .idx 0, .emptyDict] rfl

theorem hvu_short_cycle_params_witness :
    trainParams wCfg (some 0) = .ok
      ⟨-1, -1,
       (if 0 < wCfg.MULTIGRID.DEFAULT_S then
          pyRound ((wCfg.DATA.TRAIN_JITTER_SCALES.1 : ℚ)
            * ((pyRound (mkRat 1 2 * (wCfg.MULTIGRID.DEFAULT_S : ℚ)) : ℤ) : ℚ)
            / (wCfg.MULTIGRID.DEFAULT_S : ℚ))
        else wCfg.DATA.TRAIN_JITTER_SCALES.1),
       wCfg.DATA.TRAIN_JITTER_SCALES.2,
       pyRound (mkRat 1 2 * (wCfg.MULTIGRID.DEFAULT_S : ℚ))⟩ ∧
    computeParams wStTrain 0 none = trainParams wStTrain.cfg none := by
  obtain ⟨h1, _, _, h4⟩ := hvu_short_cycle_params wCfg
  exact ⟨h1 0 (Or.inl rfl) (mkRat 1 2) rfl, h4 wStTrain 0 none rfl⟩

theorem hvu_init_mode_and_nonempty_witness :
    hvuInit wCfg "foo" 10 (some wLines) = .error .assertionError ∧
    (("test" = "train" ∨ "test" = "val" ∨ "test" = "test") ∧
      ∃ lines, (some wLines : Option (List String)) = some lines ∧
        0 < hvuLen wSt) ∧
    hvuInit wCfg "val" 10 none = .error .assertionError ∧
    hvuInit wCfg "test" 10 (some []) = .error .assertionError := by
  obtain ⟨h1, h2, h3, h4⟩ := hvu_init_mode_and_nonempty
  exact ⟨h1 wCfg "foo" 10 (some wLines) (by decide),
    h2 wCfg "test" 10 (some wLines) wSt wCfg rfl,
    h3 wCfg "val" 10,
    h4 wCfg "test" 10 [] rfl⟩

theorem hvu_init_cfg_mutation_witness :
    (("train" = "train" ∨ "train" = "val") →
      wCfgT = { wCfg with
        TEST := { wCfg.TEST with NUM_ENSEMBLE_VIEWS := 1, NUM_SPATIAL_CROPS := 1 } } ∧
      wCfgT.TEST.NUM_ENSEMBLE_VIEWS = 1 ∧ wCfgT.TEST.NUM_SPATIAL_CROPS = 1) ∧
    ("train" = "test" → wCfgT = wCfg) ∧
    wCfgT.MODEL = wCfg.MODEL ∧ wCfgT.DATA = wCfg.DATA ∧
    wCfgT.MULTIGRID = wCfg.MULTIGRID ∧ wCfgT.AUG = wCfg.AUG :=
  hvu_init_cfg_mutation wCfg "train" 10 (some wLines) wStTrain wCfgT rfl

theorem hvu_loader_invariants_witness :
    wSt._path_to_videos.length = wLines.length * wSt._num_clips ∧
    wSt._labels.length = wSt._path_to_videos.length ∧
    wSt._spatial_temporal_idx.length = wSt._path_to_videos.length ∧
    0 < wSt._path_to_videos.length ∧
    hvuLen wSt = wSt._path_to_videos.length ∧
    numVideos wSt = wSt._path_to_videos.length ∧
    (∀ i : Nat, i < wSt._path_to_videos.length →
      wSt._spatial_temporal_idx[i]? = some (i % wSt._num_clips)) :=
  hvu_loader_invariants wCfg "test" 10 wLines wSt wCfg rfl

theorem hvu_test_fallback_negative_index_witness :
    getitem wEnvFail wSt 0 none = (.error .runtimeError, wSt._num_retries) ∧
    getitemLoop wEnvFail wSt wParams (3 + 1) (wSt._num_retries / 2 + 1) 0
      = ((getitemLoop wEnvFail wSt wParams 3 (wSt._num_retries / 2 + 2) (-1)).1,
         (getitemLoop wEnvFail wSt wParams 3 (wSt._num_retries / 2 + 2) (-1)).2 + 1) ∧
    pyGet wSt._path_to_videos (-1) = wSt._path_to_videos.getLast? := by
  obtain ⟨h1, h2, h3⟩ :=
    hvu_test_fallback_negative_index wCfg 10 (some wLines) wSt wCfg rfl
  exact ⟨h1 Nat Nat wEnvFail (fun t idx => rfl) (by decide),
    h2 Nat Nat wEnvFail wParams 3 rfl, h3⟩
